import Mathlib

/-!
A shallow embedding of the export pipeline of whatsapp2telegram.

Go strings are Lean `String`s, byte slices are lists of bytes, and a Go
`error` is identified with the text its `Error()` method returns (`none` is
the nil error).  Functions with effects thread a trace of the effects they
perform; what the outside world answers (the Telegram bot API, the clock, the
WhatsApp library, the file system) is read from an environment record, so
every theorem holds for every behaviour of the outside world.
-/

namespace W2T

/-- A Go `error`, identified with its message. -/
abbrev GoError := String

/-- A Go `[]byte`. -/
abbrev Bytes := List (Fin 256)

/-- The error built by `fmt.Errorf("<ctx>: %w", err)`. -/
def wrapError (ctx : String) (err : GoError) : GoError :=
  ctx ++ ": " ++ err

/-- A `*time.Location` reduced to its name and its offset east of UTC in seconds. -/
structure Location where
  name : String
  offset : Int
deriving DecidableEq, Repr

/-- The location `time.UTC`. -/
def UTC : Location := ⟨"UTC", 0⟩

/-- A `time.Time`, kept as the civil date and clock reading it presents in its location. -/
structure Time where
  year : Int
  month : Nat
  day : Nat
  hour : Nat
  minute : Nat
  second : Nat
  nsec : Nat
  loc : Location
deriving DecidableEq, Repr

/-- The zero value `time.Time{}`: January 1, year 1, 00:00:00 UTC. -/
def Time.zero : Time := ⟨1, 1, 1, 0, 0, 0, 0, UTC⟩

namespace whatsapp

/-- The struct `whatsapp.Message` of pkg/whatsapp/client.go. -/
structure Message where
  ID : String
  FromName : String
  FromPhone : String
  Text : String
  Timestamp : Time
  MediaType : String
  MediaURL : String
  MediaData : Bytes
deriving DecidableEq, Repr

/-- The connection handle `*whatsapp.Conn` of the go-whatsapp library, opaque here. -/
structure Conn where
  handle : Nat
deriving DecidableEq, Repr

/-- The session record `whatsapp.Session` of the go-whatsapp library, opaque here. -/
structure Session where
  blob : Nat
deriving DecidableEq, Repr

/-- The struct `whatsapp.Client`; `conn = none` is the nil pointer. -/
structure Client where
  conn : Option Conn
  sessionFile : String
  loggedIn : Bool
deriving DecidableEq, Repr

/-- The constructor `NewClient(sessionFile)`. -/
def NewClient (sessionFile : String) : Client :=
  { conn := none, sessionFile := sessionFile, loggedIn := false }

/-- The method `GetChats`: the returned slice (`none` is the nil slice) and the error. -/
def Client.GetChats (c : Client) : Option (List String) × Option GoError :=
  if !c.loggedIn then
    (none, some "not logged in")
  else
    (some [], some "chat listing not implemented in the current library")

/-- The method `GetMessages`: the returned slice (`none` is the nil slice) and the error. -/
def Client.GetMessages (c : Client) (_chatID : String) (_from _to : Time) :
    Option (List Message) × Option GoError :=
  if !c.loggedIn then
    (none, some "not logged in")
  else
    (some [], some "message history retrieval not implemented in the current library")

end whatsapp

/-! ## The parts of the Go standard library the program calls -/

namespace strconv

/-- The decimal digit for a number below ten. -/
def digitChar (n : Nat) : Char := Char.ofNat (48 + n)

/-- The digits of `n` in base ten, most significant first; `fuel` bounds the number of digits. -/
def natDigits : Nat → Nat → List Char
  | 0, n => [digitChar (n % 10)]
  | fuel + 1, n => if n < 10 then [digitChar n] else natDigits fuel (n / 10) ++ [digitChar (n % 10)]

/-- The characters of `strconv.FormatInt(i, 10)`, which is also what the verb `%d` prints. -/
def formatChars (i : Int) : List Char :=
  if i < 0 then '-' :: natDigits i.natAbs i.natAbs else natDigits i.natAbs i.natAbs

/-- The string `strconv.FormatInt(i, 10)`. -/
def FormatInt (i : Int) : String := String.mk (formatChars i)

/-- The test `'0' <= c && c <= '9'`. -/
def isDigit (c : Char) : Bool := decide ('0' ≤ c) && decide (c ≤ '9')

/-- The value `c - '0'` of a digit. -/
def digitVal (c : Char) : Nat := c.toNat - 48

/-- The value of a run of decimal digits. -/
def digitsVal (ds : List Char) : Nat := ds.foldl (fun acc c => acc * 10 + digitVal c) 0

/-- The call `strconv.ParseInt(tok, 10, 64)`; `none` is a syntax or range error. -/
def ParseInt (tok : List Char) : Option Int :=
  let neg := tok.head? = some '-'
  let ds := if tok.head? = some '+' ∨ tok.head? = some '-' then tok.tail else tok
  if ds = [] ∨ ¬ ds.all isDigit = true then none
  else
    let un := digitsVal ds
    if ¬ neg ∧ un ≥ 2 ^ 63 then none
    else if neg ∧ un > 2 ^ 63 then none
    else some (if neg then -(un : Int) else (un : Int))

end strconv

namespace fmt

/-- The limit `hugeWid` of fmt/scan.go on the number of runes one scan reads. -/
def hugeWid : Nat := 2 ^ 30

/-- The function `isSpace` of fmt/scan.go, with its table of space ranges. -/
def isSpace (r : Char) : Bool :=
  let n := r.toNat
  (0x9 ≤ n ∧ n ≤ 0xd) ∨ n = 0x20 ∨ n = 0x85 ∨ n = 0xa0 ∨ n = 0x1680 ∨
    (0x2000 ≤ n ∧ n ≤ 0x200a) ∨ (0x2028 ≤ n ∧ n ≤ 0x2029) ∨ n = 0x202f ∨ n = 0x205f ∨ n = 0x3000

/-- The method `SkipSpace` of the scan state when newlines do not count as space (as in
`Sscanf`): the input left after the leading space, `none` for "unexpected newline". -/
def SkipSpace : List Char → Option (List Char)
  | [] => some []
  | r :: rest =>
    if r = '\r' ∧ rest.head? = some '\n' then SkipSpace rest
    else if r = '\n' then none
    else if !isSpace r then some (r :: rest)
    else SkipSpace rest

/-- The method `scanInt` for the verb `%d` and 64 bits: skip space, refuse the end of input,
accept one sign, read the longest run of digits (at least one), and hand the token to
`strconv.ParseInt`.  Input after the token is left unread. -/
def scanInt (input : List Char) : Option Int :=
  match SkipSpace input with
  | none => none
  | some [] => none
  | some (c :: rest) =>
    let sign := if c = '+' ∨ c = '-' then [c] else []
    let body := if c = '+' ∨ c = '-' then rest else c :: rest
    let digits := body.takeWhile strconv.isDigit
    if digits = [] then none
    else strconv.ParseInt (sign ++ digits)

/-- The call `fmt.Sscanf(str, "%d", &id)` as far as `id` is concerned: the value stored in
`id`, or `none` when the scan fails and `id` is left untouched.  The format makes the scanner
skip leading space, then scan one integer from at most `hugeWid` runes of input. -/
def SscanfInt64 (str : String) : Option Int :=
  match SkipSpace (str.toList.take hugeWid) with
  | none => none
  | some rest => scanInt rest

end fmt

namespace time

/-- The decimal digits of `n`, padded with zeros on the left to at least `width` characters. -/
def zeroPad (width n : Nat) : List Char :=
  let ds := strconv.natDigits n n
  List.replicate (width - ds.length) '0' ++ ds

/-- The helper `appendInt(b, x, width)` of time/format.go: a minus sign for a negative
number, then its absolute value zero-padded to `width`. -/
def appendInt (x : Int) (width : Nat) : List Char :=
  if x < 0 then '-' :: zeroPad width x.natAbs else zeroPad width x.natAbs

/-- The predicate `isLeap(year)`. -/
def isLeap (year : Int) : Bool :=
  decide (year % 4 = 0) && (decide (year % 100 ≠ 0) || decide (year % 400 = 0))

/-- The function `daysIn(month, year)`. -/
def daysIn (month : Nat) (year : Int) : Nat :=
  if month = 2 then (if isLeap year then 29 else 28)
  else if month = 4 ∨ month = 6 ∨ month = 9 ∨ month = 11 then 30
  else 31

/-- Midnight UTC of a calendar date: `Date(year, month, day, 0, 0, 0, 0, UTC)`. -/
def midnightUTC (year : Int) (month day : Nat) : Time :=
  ⟨year, month, day, 0, 0, 0, 0, UTC⟩

/-- The four-digit year read by the layout element `2006`. -/
def parseYear : List Char → Option (Int × List Char)
  | a :: b :: c :: d :: rest =>
    if strconv.isDigit a && strconv.isDigit b && strconv.isDigit c && strconv.isDigit d then
      some ((strconv.digitsVal [a, b, c, d] : Nat), rest)
    else none
  | _ => none

/-- The helper `getnum(s, true)`: exactly two digits. -/
def getnum : List Char → Option (Nat × List Char)
  | a :: b :: rest =>
    if strconv.isDigit a && strconv.isDigit b then some (strconv.digitsVal [a, b], rest)
    else none
  | _ => none

/-- The literal `-` between two layout elements. -/
def skipDash : List Char → Option (List Char)
  | c :: rest => if c = '-' then some rest else none
  | [] => none

/-- The fields read by `time.Parse` with the layout `2006-01-02`: year, `-`, two-digit month
in 1..12, `-`, two-digit day, no text after it, and a day that exists in that month. -/
def parseFields (value : List Char) : Option (Int × Nat × Nat) :=
  match parseYear value with
  | none => none
  | some (year, v1) =>
    match skipDash v1 with
    | none => none
    | some v2 =>
      match getnum v2 with
      | none => none
      | some (month, v3) =>
        if month = 0 ∨ 12 < month then none
        else
          match skipDash v3 with
          | none => none
          | some v4 =>
            match getnum v4 with
            | none => none
            | some (day, v5) =>
              if v5 ≠ [] then none
              else if day < 1 ∨ day > daysIn month year then none
              else some (year, month, day)

/-- The call `time.Parse("2006-01-02", value)`.  A layout without a zone gives a time in
UTC.  The text of the library's parse error is abbreviated to its first part. -/
def Parse (value : String) : Except GoError Time :=
  match parseFields value.toList with
  | some (year, month, day) => .ok (midnightUTC year month day)
  | none => .error ("parsing time \"" ++ value ++ "\" as \"2006-01-02\"")

/-- The number of days from 1970-01-01 to a civil date (proleptic Gregorian calendar). -/
def daysFromCivil (year : Int) (month day : Nat) : Int :=
  let y := if month ≤ 2 then year - 1 else year
  let era := y / 400
  let yoe := y - era * 400
  let mp := (month + 9) % 12
  let doy := (153 * mp + 2) / 5 + day - 1
  let doe := yoe * 365 + yoe / 4 - yoe / 100 + (doy : Int)
  era * 146097 + doe - 719468

end time

/-- The method `Time.Unix`: seconds since January 1, 1970 UTC. -/
def Time.Unix (t : Time) : Int :=
  time.daysFromCivil t.year t.month t.day * 86400 +
    (t.hour * 3600 + t.minute * 60 + t.second : Nat) - t.loc.offset

/-- The method `Time.Format` with the layout `2006-01-02`. -/
def Time.FormatDate (t : Time) : String :=
  String.mk (time.appendInt t.year 4 ++ '-' :: time.zeroPad 2 t.month ++ '-' :: time.zeroPad 2 t.day)

/-- The method `Time.Format` with the layout `2006-01-02 15:04:05`. -/
def Time.FormatDateTime (t : Time) : String :=
  t.FormatDate ++ String.mk (' ' :: time.zeroPad 2 t.hour ++ ':' :: time.zeroPad 2 t.minute ++
    ':' :: time.zeroPad 2 t.second)

/-! ## Effects and the outside world -/

namespace telegram

/-- The value `tgbotapi.FileBytes`. -/
structure FileBytes where
  Name : String
  Bytes : Bytes
deriving DecidableEq, Repr

/-- The requests (`tgbotapi.Chattable`) the program builds: `NewMessage`, `NewPhoto`,
`NewVideo`, `NewAudio` and `NewDocument`, the last four with their caption. -/
inductive Chattable where
  | message (chatID : Int) (text : String)
  | photo (chatID : Int) (file : FileBytes) (caption : String)
  | video (chatID : Int) (file : FileBytes) (caption : String)
  | audio (chatID : Int) (file : FileBytes) (caption : String)
  | document (chatID : Int) (file : FileBytes) (caption : String)
deriving DecidableEq, Repr

/-- Whether a request is a text message. -/
def Chattable.isText : Chattable → Bool
  | .message _ _ => true
  | _ => false

end telegram

/-- One effect of the program on the outside world. -/
inductive Event where
  | botSend (req : telegram.Chattable) (err : Option GoError)
  | stdout (text : String)
  | sleep (milliseconds : Nat)
  | fileCreate (path : String)
  | fileWrite (path : String) (data : Bytes)
deriving DecidableEq, Repr

/-- The effects performed so far, oldest first. -/
abbrev Trace := List Event

/-- The answers of the outside world, each a function of what has happened so far. -/
structure Env where
  /-- the error returned by `bot.Send(req)`, `none` for success -/
  botSend : Trace → telegram.Chattable → Option GoError
  /-- the clock reading of `time.Now()` -/
  now : Trace → Time
  /-- the result of `whatsapp.NewConn(5 * time.Second)` -/
  NewConn : Trace → Except GoError whatsapp.Conn
  /-- the result of `os.Open(path)`: the bytes of the file -/
  osOpen : Trace → String → Except GoError Bytes
  /-- the result of decoding a session with `encoding/gob` -/
  gobDecode : Bytes → Except GoError whatsapp.Session
  /-- the result of `conn.RestoreWithSession(session)` -/
  RestoreWithSession : Trace → whatsapp.Conn → whatsapp.Session → Except GoError whatsapp.Session
  /-- the error returned by `os.Create(path)` -/
  osCreate : Trace → String → Option GoError
  /-- the result of encoding a session with `encoding/gob` into the open file -/
  gobEncode : Trace → whatsapp.Session → Except GoError Bytes

/-- The requests handed to `bot.Send` in a trace, oldest first. -/
def sends (tr : Trace) : List telegram.Chattable :=
  tr.filterMap fun e => match e with
    | .botSend req _ => some req
    | _ => none

/-! ## pkg/telegram/client.go -/

namespace telegram

/-- The handle `*tgbotapi.BotAPI`, reduced to the fields the program sets. -/
structure BotAPI where
  Token : String
  Debug : Bool
deriving DecidableEq, Repr

/-- The struct `telegram.Client`. -/
structure Client where
  bot : BotAPI
  chatID : String
deriving DecidableEq, Repr

/-- The function `parseChatID`: `id` starts at 0 and keeps that value when the scan fails;
the error of `Sscanf` is dropped. -/
def parseChatID (chatID : String) : Int :=
  match fmt.SscanfInt64 chatID with
  | some id => id
  | none => 0

/-- The function `formatMessage`. -/
def formatMessage (msg : whatsapp.Message) : String :=
  let timestamp := msg.Timestamp.FormatDateTime
  let formatted := "From: " ++ msg.FromName ++ " (" ++ msg.FromPhone ++ ")\nTime: " ++
    timestamp ++ "\n\n" ++ msg.Text
  if msg.MediaType ≠ "" then
    formatted ++ ("\n\n[Contains " ++ msg.MediaType ++ "]")
  else
    formatted

/-- The method `SendMessage`: one `bot.Send` of a text message. -/
def Client.SendMessage (env : Env) (c : Client) (text : String) (tr : Trace) :
    Option GoError × Trace :=
  let msg := Chattable.message (parseChatID c.chatID) text
  let err := env.botSend tr msg
  match err with
  | some e => (some (wrapError "error sending message" e), tr ++ [Event.botSend msg err])
  | none => (none, tr ++ [Event.botSend msg err])

/-- The `switch mediaType` of `SendMedia`: the request for a supported kind, `none` for the
`default` branch. -/
def mediaRequest (mediaType : String) (chatID : Int) (fileBytes : FileBytes)
    (caption : String) : Option Chattable :=
  match mediaType with
  | "image" => some (.photo chatID fileBytes caption)
  | "video" => some (.video chatID fileBytes caption)
  | "audio" => some (.audio chatID fileBytes caption)
  | "document" => some (.document chatID fileBytes caption)
  | _ => none

/-- The method `SendMedia`. -/
def Client.SendMedia (env : Env) (c : Client) (mediaType : String) (data : Bytes)
    (caption : String) (tr : Trace) : Option GoError × Trace :=
  let chatID := parseChatID c.chatID
  let fileBytes : FileBytes :=
    { Name := "media_" ++ strconv.FormatInt (env.now tr).Unix, Bytes := data }
  match mediaRequest mediaType chatID fileBytes caption with
  | none => (some ("unsupported media type: " ++ mediaType), tr)
  | some msg =>
    let err := env.botSend tr msg
    match err with
    | some e => (some (wrapError "error sending media" e), tr ++ [Event.botSend msg err])
    | none => (none, tr ++ [Event.botSend msg err])

/-- The header text of `ExportMessages`, as the source file spells it. -/
def msgHeader (n : Nat) : String :=
  "\u00f0\u0178\u201c\u00b1 WhatsApp Export (" ++ strconv.FormatInt n ++ " messages)"

/-- The loop `for _, msg := range messages` of `ExportMessages`. -/
def exportLoop (env : Env) (c : Client) (includeMedia : Bool) :
    List whatsapp.Message → Trace → Option GoError × Trace
  | [], tr => (none, tr)
  | msg :: rest, tr =>
    let formattedMsg := formatMessage msg
    match c.SendMessage env formattedMsg tr with
    | (some err, tr1) => (some err, tr1)
    | (none, tr1) =>
      let tr2 :=
        if includeMedia && msg.MediaData ≠ [] && decide (msg.MediaData.length > 0) then
          match c.SendMedia env msg.MediaType msg.MediaData "" tr1 with
          | (some err, tr3) =>
            tr3 ++ [Event.stdout ("Warning: Failed to send media for message " ++ msg.ID ++
              ": " ++ err ++ "\n")]
          | (none, tr3) => tr3
        else tr1
      exportLoop env c includeMedia rest (tr2 ++ [Event.sleep 100])

/-- The method `ExportMessages`. -/
def Client.ExportMessages (env : Env) (c : Client) (messages : List whatsapp.Message)
    (includeMedia : Bool) (tr : Trace) : Option GoError × Trace :=
  match c.SendMessage env (msgHeader messages.length) tr with
  | (some err, tr1) => (some err, tr1)
  | (none, tr1) => exportLoop env c includeMedia messages tr1

end telegram

/-! ## pkg/config/config.go -/

namespace config

/-- The struct `WhatsAppConfig`. -/
structure WhatsAppConfig where
  SessionFile : String
deriving DecidableEq, Repr

/-- The struct `TelegramConfig`. -/
structure TelegramConfig where
  BotToken : String
  ChatID : String
deriving DecidableEq, Repr

/-- The struct `ExportConfig`. -/
structure ExportConfig where
  IncludeMedia : Bool
  DateFrom : String
  DateTo : String
deriving DecidableEq, Repr

/-- The struct `Config`. -/
structure Config where
  WhatsApp : WhatsAppConfig
  Telegram : TelegramConfig
  Export : ExportConfig
deriving DecidableEq, Repr

/-- The method `ParseDateRange`, returning `(from, to, err)`.  The named results start as
zero values; `now` is the clock reading `time.Now()` would give. -/
def ExportConfig.ParseDateRange (e : ExportConfig) (now : Time) : Time × Time × Option GoError :=
  match (if e.DateFrom ≠ "" then time.Parse e.DateFrom else .ok Time.zero) with
  | .error err => (Time.zero, Time.zero, some (wrapError "invalid date_from format" err))
  | .ok dateFrom =>
    if e.DateTo ≠ "" then
      match time.Parse e.DateTo with
      | .error err => (Time.zero, Time.zero, some (wrapError "invalid date_to format" err))
      | .ok dateTo => (dateFrom, dateTo, none)
    else
      (dateFrom, now, none)

end config

/-! ## pkg/exporter/exporter.go -/

namespace exporter

/-- The struct `Exporter`. -/
structure Exporter where
  config : config.Config
  whatsapp : whatsapp.Client
  telegram : telegram.Client
deriving DecidableEq, Repr

/-- The method `ListChats`. -/
def Exporter.ListChats (e : Exporter) : Option (List String) × Option GoError :=
  e.whatsapp.GetChats

/-- The method `ExportChat`. -/
def Exporter.ExportChat (env : Env) (e : Exporter) (chatID : String) (tr : Trace) :
    Option GoError × Trace :=
  let tr1 := tr ++ [Event.stdout "Starting export process...\n"]
  match e.config.Export.ParseDateRange (env.now tr1) with
  | (_, _, some err) => (some (wrapError "error parsing date range" err), tr1)
  | (dateFrom, dateTo, none) =>
    let tr2 := tr1 ++ [Event.stdout ("Fetching messages from WhatsApp (from " ++
      dateFrom.FormatDate ++ " to " ++ dateTo.FormatDate ++ ")...\n")]
    match e.whatsapp.GetMessages chatID dateFrom dateTo with
    | (_, some err) => (some (wrapError "error getting messages" err), tr2)
    | (messages, none) =>
      let tr3 := tr2 ++ [Event.stdout ("Exporting " ++
        strconv.FormatInt (messages.getD []).length ++ " messages to Telegram...\n")]
      match e.telegram.ExportMessages env (messages.getD []) e.config.Export.IncludeMedia tr3 with
      | (some err, tr4) => (some (wrapError "error exporting messages" err), tr4)
      | (none, tr4) => (none, tr4 ++ [Event.stdout "Export completed successfully!\n"])

/-- The loop `for _, chatID := range chats` of `ExportAllChats`, over any `ExportChat`. -/
def exportChatsLoop (exportChat : String → Trace → Option GoError × Trace) :
    List String → Trace → Trace
  | [], tr => tr
  | chatID :: rest, tr =>
    let tr1 := tr ++ [Event.stdout ("Exporting chat: " ++ chatID ++ "\n")]
    let tr2 :=
      match exportChat chatID tr1 with
      | (some err, tr3) =>
        tr3 ++ [Event.stdout ("Warning: Error exporting chat " ++ chatID ++ ": " ++ err ++ "\n")]
      | (none, tr3) => tr3
    exportChatsLoop exportChat rest (tr2 ++ [Event.sleep 1000])

/-- The body of `ExportAllChats` over the result of its call to `ListChats` and over the
`ExportChat` it calls in the loop. -/
def exportAllChatsWith (listed : Option (List String) × Option GoError)
    (exportChat : String → Trace → Option GoError × Trace) (tr : Trace) :
    Option GoError × Trace :=
  match listed with
  | (_, some err) => (some (wrapError "error listing chats" err), tr)
  | (chats, none) => (none, exportChatsLoop exportChat (chats.getD []) tr)

/-- The method `ExportAllChats`. -/
def Exporter.ExportAllChats (env : Env) (e : Exporter) (tr : Trace) : Option GoError × Trace :=
  exportAllChatsWith e.ListChats (e.ExportChat env) tr

end exporter

/-! ## pkg/whatsapp/client.go: connecting and the session file -/

namespace whatsapp

/-- The method `saveSession`. -/
def Client.saveSession (env : Env) (c : Client) (session : Session) (tr : Trace) :
    Option GoError × Trace :=
  match env.osCreate tr c.sessionFile with
  | some err => (some (wrapError "error creating session file" err), tr)
  | none =>
    let tr1 := tr ++ [Event.fileCreate c.sessionFile]
    match env.gobEncode tr1 session with
    | .error err => (some (wrapError "error encoding session" err), tr1)
    | .ok data => (none, tr1 ++ [Event.fileWrite c.sessionFile data])

/-- The method `restoreSession`, called with the connection `conn` that `c.conn` holds. -/
def Client.restoreSession (env : Env) (c : Client) (conn : Conn) (tr : Trace) :
    Option GoError × Trace :=
  match env.osOpen tr c.sessionFile with
  | .error err => (some (wrapError "error opening session file" err), tr)
  | .ok file =>
    match env.gobDecode file with
    | .error err => (some (wrapError "error decoding session" err), tr)
    | .ok session =>
      match env.RestoreWithSession tr conn session with
      | .error err => (some (wrapError "error restoring session" err), tr)
      | .ok session1 =>
        match c.saveSession env session1 tr with
        | (some err, tr1) => (some (wrapError "error saving restored session" err), tr1)
        | (none, tr1) => (none, tr1)

/-- The method `Connect`: the returned error and the client as it is left.  The handler
registered with `AddHandler` does nothing and is left out. -/
def Client.Connect (env : Env) (c : Client) (tr : Trace) : Option GoError × Client × Trace :=
  match env.NewConn tr with
  | .error err => (some (wrapError "error creating connection" err), c, tr)
  | .ok conn =>
    let c1 := { c with conn := some conn }
    match c1.restoreSession env conn tr with
    | (some _, tr1) =>
      (none, { c1 with loggedIn := false },
        tr1 ++ [Event.stdout "Session restore failed, new login required\n"])
    | (none, tr1) => (none, { c1 with loggedIn := true }, tr1)

end whatsapp

/-! ## The login subcommand: configuration, construction and login -/

namespace viper

/-- The outcomes of `viper.ReadInConfig()` that `config.Load` tells apart: the file was
read, the error is a `viper.ConfigFileNotFoundError`, or it is another error. -/
inductive ReadResult where
  | read
  | notFound (err : GoError)
  | failed (err : GoError)
deriving DecidableEq, Repr

end viper

/-- The outside world of a whole command: to the answers of `Env` it adds those of the
configuration library, of the constructor of the bot API and of the pairing handshake. -/
structure CmdEnv extends Env where
  /-- the outcome of `viper.ReadInConfig()` for a configuration name -/
  ReadInConfig : Trace → String → viper.ReadResult
  /-- the result of `viper.Unmarshal(&cfg)` after the file was read -/
  Unmarshal : Trace → String → Except GoError config.Config
  /-- the result of `tgbotapi.NewBotAPI(token)` -/
  NewBotAPI : Trace → String → Except GoError telegram.BotAPI
  /-- the codes that `conn.Login(qr)` sends on `qr`, and its result -/
  connLogin : Trace → whatsapp.Conn → List String × Except GoError whatsapp.Session

namespace config

/-- The configuration `Load` returns when there is no configuration file. -/
def defaultConfig : Config :=
  { WhatsApp := { SessionFile := "whatsapp_session.gob" }
    Telegram := { BotToken := "", ChatID := "" }
    Export := { IncludeMedia := true, DateFrom := "", DateTo := "" } }

/-- The function `Load`. -/
def Load (env : CmdEnv) (configFile : String) (tr : Trace) : Except GoError Config :=
  match env.ReadInConfig tr configFile with
  | .notFound _ => .ok defaultConfig
  | .failed err => .error err
  | .read =>
    match env.Unmarshal tr configFile with
    | .error err => .error (wrapError "unable to decode config" err)
    | .ok cfg => .ok cfg

end config

namespace telegram

/-- The constructor `NewClient(token, chatID)` of pkg/telegram/client.go. -/
def NewClient (env : CmdEnv) (token chatID : String) (tr : Trace) : Except GoError Client :=
  match env.NewBotAPI tr token with
  | .error err => .error (wrapError "error creating Telegram bot" err)
  | .ok bot => .ok { bot := { bot with Debug := false }, chatID := chatID }

end telegram

namespace whatsapp

/-- The method `Login`.  The goroutine that prints the prompt and the pairing codes is taken
to have printed every code by the time `conn.Login` returns. -/
def Client.Login (env : CmdEnv) (c : Client) (tr : Trace) : Option GoError × Client × Trace :=
  match c.conn with
  | none => (some "connection not established, call Connect first", c, tr)
  | some conn =>
    let tr1 := tr ++ Event.stdout "Please scan the QR code with your WhatsApp app:\n" ::
      (env.connLogin tr conn).1.map (fun code => Event.stdout (code ++ "\n"))
    match (env.connLogin tr conn).2 with
    | .error err => (some (wrapError "error during login" err), c, tr1)
    | .ok session =>
      match c.saveSession env.toEnv session tr1 with
      | (some err, tr2) => (some (wrapError "error saving session" err), c, tr2)
      | (none, tr2) => (none, { c with loggedIn := true }, tr2)

end whatsapp

namespace exporter

/-- The constructor `NewExporter(cfg)`. -/
def NewExporter (env : CmdEnv) (cfg : config.Config) (tr : Trace) : Except GoError Exporter :=
  let waClient := whatsapp.NewClient cfg.WhatsApp.SessionFile
  match telegram.NewClient env cfg.Telegram.BotToken cfg.Telegram.ChatID tr with
  | .error err => .error (wrapError "error creating Telegram client" err)
  | .ok tgClient => .ok { config := cfg, whatsapp := waClient, telegram := tgClient }

/-- The method `Exporter.Connect`: the error and the exporter with its WhatsApp client as
`Connect` left it. -/
def Exporter.Connect (env : Env) (e : Exporter) (tr : Trace) :
    Option GoError × Exporter × Trace :=
  match e.whatsapp.Connect env tr with
  | (err, client, tr1) => (err, { e with whatsapp := client }, tr1)

/-- The method `Exporter.Login`. -/
def Exporter.Login (env : CmdEnv) (e : Exporter) (tr : Trace) :
    Option GoError × Exporter × Trace :=
  match e.whatsapp.Login env tr with
  | (err, client, tr1) => (err, { e with whatsapp := client }, tr1)

end exporter

/-! ## cmd/whatsapp2telegram/main.go -/

/-- The function `loginToWhatsApp`, with the package variable `configFile` as a parameter:
the returned error, the exporter `exp` as it is when the function returns (`none` when no
exporter was built), and the trace. -/
def loginToWhatsApp (env : CmdEnv) (configFile : String) (tr : Trace) :
    Option GoError × Option exporter.Exporter × Trace :=
  match config.Load env configFile tr with
  | .error err => (some (wrapError "error loading config" err), none, tr)
  | .ok cfg =>
    match exporter.NewExporter env cfg tr with
    | .error err => (some (wrapError "error creating exporter" err), none, tr)
    | .ok exp =>
      match exp.Connect env.toEnv tr with
      | (some err, exp1, tr1) =>
        (some (wrapError "error connecting to WhatsApp" err), some exp1, tr1)
      | (none, exp1, tr1) =>
        match exp1.Login env (tr1 ++ [Event.stdout "Logging in to WhatsApp...\n"]) with
        | (some err, exp2, tr2) =>
          (some (wrapError "error logging in to WhatsApp" err), some exp2, tr2)
        | (none, exp2, tr2) => (none, some exp2, tr2 ++ [Event.stdout "Login successful!\n"])

/-! ## Sample inputs, used to instantiate the theorems -/

/-- An outside world whose bot answers as `botSend` says; the clock shows the zero time, no
WhatsApp connection can be made and there is no session file. -/
def sampleEnv (botSend : Trace → telegram.Chattable → Option GoError) : Env :=
  { botSend := botSend
    now := fun _ => Time.zero
    NewConn := fun _ => .error "no network"
    osOpen := fun _ _ => .error "no such file"
    gobDecode := fun _ => .error "unexpected EOF"
    RestoreWithSession := fun _ _ _ => .error "no network"
    osCreate := fun _ _ => none
    gobEncode := fun _ _ => .ok [] }

/-- A bot on which every text send succeeds and every media send fails. -/
def textOnlyBot (_ : Trace) (req : telegram.Chattable) : Option GoError :=
  if req.isText then none else some "Bad Request: file too big"

/-- An outside world in which the connection is made, a session file is read and decoded,
and the library then refuses to restore the session. -/
def rejectedSessionEnv : Env :=
  { sampleEnv (fun _ _ => none) with
    NewConn := fun _ => .ok ⟨7⟩
    osOpen := fun _ _ => .ok [1, 2, 3]
    gobDecode := fun _ => .ok ⟨42⟩
    RestoreWithSession := fun _ _ _ => .error "admin test failed" }

/-- An outside world in which the connection is made and the stored session is restored and
saved again. -/
def restoredSessionEnv : Env :=
  { sampleEnv (fun _ _ => none) with
    NewConn := fun _ => .ok ⟨7⟩
    osOpen := fun _ _ => .ok [1, 2, 3]
    gobDecode := fun _ => .ok ⟨42⟩
    RestoreWithSession := fun _ _ s => .ok ⟨s.blob + 1⟩
    gobEncode := fun _ _ => .ok [4, 5, 6] }

/-- A destination client for a channel id. -/
def sampleClient : telegram.Client :=
  { bot := { Token := "123456:token", Debug := false }, chatID := "-1001234567890" }

/-- Two messages, the second one with an image. -/
def sampleMessages : List whatsapp.Message :=
  [ { ID := "m1", FromName := "Ann", FromPhone := "+100", Text := "hello",
      Timestamp := ⟨2024, 2, 9, 3, 4, 5, 0, UTC⟩, MediaType := "", MediaURL := "",
      MediaData := [] },
    { ID := "m2", FromName := "Bob", FromPhone := "+200", Text := "look",
      Timestamp := ⟨2024, 2, 9, 3, 5, 0, 0, UTC⟩, MediaType := "image", MediaURL := "",
      MediaData := [1, 2, 3] } ]

/-- A first run of the login subcommand: there is no configuration file, the Telegram API
refuses every bot token, and the WhatsApp side would connect, restore the stored session and
complete a pairing if it were asked to. -/
def firstRunEnv : CmdEnv :=
  { restoredSessionEnv with
    ReadInConfig := fun _ _ => .notFound "Config File \"config\" Not Found"
    Unmarshal := fun _ _ => .error "no configuration was read"
    NewBotAPI := fun _ _ => .error "Not Found"
    connLogin := fun _ _ => (["1@pairing-code"], .ok ⟨99⟩) }

/-- The same first run with a Telegram API that accepts every bot token. -/
def acceptedTokenEnv : CmdEnv :=
  { firstRunEnv with NewBotAPI := fun _ token => .ok { Token := token, Debug := true } }

end W2T

/-! ## Theorems -/

namespace W2T

open whatsapp telegram config exporter

/-- C1 (counterexample): on a client that is not logged in, `GetChats` and `GetMessages`
return the error "not logged in" and not the not-implemented error. -/
theorem GetChats_GetMessages_not_logged_in_counterexample :
    (whatsapp.Client.GetChats ⟨none, "whatsapp_session.gob", false⟩).2 = some "not logged in" ∧
    (whatsapp.Client.GetChats ⟨none, "whatsapp_session.gob", false⟩).2 ≠
      some "chat listing not implemented in the current library" ∧
    (whatsapp.Client.GetMessages ⟨none, "whatsapp_session.gob", false⟩ "family"
      Time.zero Time.zero).2 = some "not logged in" ∧
    (whatsapp.Client.GetMessages ⟨none, "whatsapp_session.gob", false⟩ "family"
      Time.zero Time.zero).2 ≠
      some "message history retrieval not implemented in the current library" := by
  decide

/-- C1 (amended): for every chat id and date window, a logged-in client gets an empty slice
and the not-implemented error from `GetChats` and from `GetMessages`, and a client that is
not logged in gets a nil slice and the error "not logged in" from both. -/
theorem GetChats_GetMessages_by_login_state (c : whatsapp.Client) (chatID : String)
    (dateFrom dateTo : Time) :
    (c.loggedIn = true →
      c.GetChats = (some [], some "chat listing not implemented in the current library") ∧
      c.GetMessages chatID dateFrom dateTo =
        (some [], some "message history retrieval not implemented in the current library")) ∧
    (c.loggedIn = false →
      c.GetChats = (none, some "not logged in") ∧
      c.GetMessages chatID dateFrom dateTo = (none, some "not logged in")) := by
  constructor
  · intro h
    simp [whatsapp.Client.GetChats, whatsapp.Client.GetMessages, h]
  · intro h
    simp [whatsapp.Client.GetChats, whatsapp.Client.GetMessages, h]

/-- C1 (witness): the amended statement at a logged-in and at a logged-out client. -/
theorem GetChats_GetMessages_by_login_state_witness :
    ((whatsapp.Client.mk (some ⟨1⟩) "whatsapp_session.gob" true).GetChats =
        (some [], some "chat listing not implemented in the current library") ∧
      (whatsapp.Client.mk (some ⟨1⟩) "whatsapp_session.gob" true).GetMessages "family"
          Time.zero Time.zero =
        (some [], some "message history retrieval not implemented in the current library")) ∧
    ((whatsapp.Client.mk (some ⟨1⟩) "whatsapp_session.gob" false).GetChats =
        (none, some "not logged in") ∧
      (whatsapp.Client.mk (some ⟨1⟩) "whatsapp_session.gob" false).GetMessages "family"
          Time.zero Time.zero = (none, some "not logged in")) :=
  ⟨(GetChats_GetMessages_by_login_state ⟨some ⟨1⟩, "whatsapp_session.gob", true⟩ "family"
      Time.zero Time.zero).1 rfl,
   (GetChats_GetMessages_by_login_state ⟨some ⟨1⟩, "whatsapp_session.gob", false⟩ "family"
      Time.zero Time.zero).2 rfl⟩

/-- The loop of `ExportAllChats` is a left fold of one step per chat. -/
theorem exportChatsLoop_eq_foldl (exportChat : String → Trace → Option GoError × Trace)
    (chats : List String) (tr : Trace) :
    exportChatsLoop exportChat chats tr =
      chats.foldl (fun t chatID =>
        (match exportChat chatID (t ++ [Event.stdout ("Exporting chat: " ++ chatID ++ "\n")]) with
          | (some err, t1) =>
            t1 ++ [Event.stdout ("Warning: Error exporting chat " ++ chatID ++ ": " ++ err ++ "\n")]
          | (none, t1) => t1) ++ [Event.sleep 1000]) tr := by
  induction chats generalizing tr with
  | nil => rfl
  | cons chatID rest ih =>
    simp only [exportChatsLoop, List.foldl_cons]
    exact ih _

/-- The requests sent in a concatenation of traces. -/
theorem sends_append (a b : Trace) : sends (a ++ b) = sends a ++ sends b := by
  simp [sends, List.filterMap_append]

/-- The `switch` of `SendMedia` has a request exactly for the four supported kinds. -/
theorem mediaRequest_eq_none_iff (mediaType : String) (chatID : Int) (file : FileBytes)
    (caption : String) :
    mediaRequest mediaType chatID file caption = none ↔
      mediaType ∉ ["image", "video", "audio", "document"] := by
  unfold mediaRequest
  split <;> simp_all

/-- A request built by the `switch` of `SendMedia` is never a text message. -/
theorem mediaRequest_not_text (mediaType : String) (chatID : Int) (file : FileBytes)
    (caption : String) (req : Chattable)
    (h : mediaRequest mediaType chatID file caption = some req) : req.isText = false := by
  unfold mediaRequest at h
  split at h <;> simp at h <;> subst h <;> rfl

/-- The two outcomes of `SendMedia`: an unsupported kind is refused with the trace as it
was, a supported kind is one `bot.Send` of a request that is not a text message. -/
theorem SendMedia_outcomes (env : Env) (c : telegram.Client) (mediaType : String)
    (data : Bytes) (caption : String) (tr : Trace) :
    (mediaType ∉ ["image", "video", "audio", "document"] →
      c.SendMedia env mediaType data caption tr =
        (some ("unsupported media type: " ++ mediaType), tr)) ∧
    (mediaType ∈ ["image", "video", "audio", "document"] →
      ∃ req : Chattable, req.isText = false ∧
        (c.SendMedia env mediaType data caption tr).2 =
          tr ++ [Event.botSend req (env.botSend tr req)] ∧
        sends (c.SendMedia env mediaType data caption tr).2 = sends tr ++ [req] ∧
        (c.SendMedia env mediaType data caption tr).1 =
          (env.botSend tr req).map (wrapError "error sending media")) := by
  constructor
  · intro h
    have h1 := (mediaRequest_eq_none_iff mediaType (parseChatID c.chatID)
      { Name := "media_" ++ strconv.FormatInt (env.now tr).Unix, Bytes := data } caption).2 h
    simp only [telegram.Client.SendMedia, h1]
  · intro h
    cases hreq : mediaRequest mediaType (parseChatID c.chatID)
      { Name := "media_" ++ strconv.FormatInt (env.now tr).Unix, Bytes := data } caption with
    | none => exact absurd h ((mediaRequest_eq_none_iff _ _ _ _).1 hreq)
    | some req =>
      refine ⟨req, mediaRequest_not_text _ _ _ _ _ hreq, ?_⟩
      simp only [telegram.Client.SendMedia, hreq]
      cases hsend : env.botSend tr req <;> simp [sends_append, sends]

/-- C5: for a media kind outside image, video, audio and document (the empty string
included), `SendMedia` returns the unsupported-media-type error and leaves the trace as it
was, so `bot.Send` is not called; for each of the four kinds it calls `bot.Send` exactly
once, with a request that is not a text message, and returns that call's outcome. -/
theorem SendMedia_dispatch_on_kind (env : Env) (c : telegram.Client) (mediaType : String)
    (data : Bytes) (caption : String) (tr : Trace) :
    (mediaType ∉ ["image", "video", "audio", "document"] →
      c.SendMedia env mediaType data caption tr =
        (some ("unsupported media type: " ++ mediaType), tr)) ∧
    (mediaType ∈ ["image", "video", "audio", "document"] →
      ∃ req : Chattable, req.isText = false ∧
        (c.SendMedia env mediaType data caption tr).2 =
          tr ++ [Event.botSend req (env.botSend tr req)] ∧
        sends (c.SendMedia env mediaType data caption tr).2 = sends tr ++ [req] ∧
        (c.SendMedia env mediaType data caption tr).1 =
          (env.botSend tr req).map (wrapError "error sending media")) :=
  SendMedia_outcomes env c mediaType data caption tr

/-- C5 (witness): the kind "sticker" is refused without a send, the kind "image" is sent. -/
theorem SendMedia_dispatch_on_kind_witness :
    (sampleClient.SendMedia (sampleEnv textOnlyBot) "sticker" [1, 2] "" [] =
      (some ("unsupported media type: " ++ "sticker"), [])) ∧
    (∃ req : Chattable, req.isText = false ∧
      (sampleClient.SendMedia (sampleEnv textOnlyBot) "image" [1, 2] "" []).2 =
        [] ++ [Event.botSend req ((sampleEnv textOnlyBot).botSend [] req)] ∧
      sends (sampleClient.SendMedia (sampleEnv textOnlyBot) "image" [1, 2] "" []).2 =
        sends [] ++ [req] ∧
      (sampleClient.SendMedia (sampleEnv textOnlyBot) "image" [1, 2] "" []).1 =
        ((sampleEnv textOnlyBot).botSend [] req).map (wrapError "error sending media")) :=
  ⟨(SendMedia_dispatch_on_kind (sampleEnv textOnlyBot) sampleClient "sticker" [1, 2] "" []).1
      (by decide),
   (SendMedia_dispatch_on_kind (sampleEnv textOnlyBot) sampleClient "image" [1, 2] "" []).2
      (by decide)⟩

/-- What `SendMessage` does when the text send succeeds. -/
theorem SendMessage_of_ok (env : Env) (c : telegram.Client) (text : String) (tr : Trace)
    (h : env.botSend tr (.message (parseChatID c.chatID) text) = none) :
    c.SendMessage env text tr =
      (none, tr ++ [Event.botSend (.message (parseChatID c.chatID) text) none]) := by
  simp [telegram.Client.SendMessage, h]

/-- What `SendMessage` does when the text send fails. -/
theorem SendMessage_of_error (env : Env) (c : telegram.Client) (text : String) (tr : Trace)
    (e : GoError) (h : env.botSend tr (.message (parseChatID c.chatID) text) = some e) :
    c.SendMessage env text tr =
      (some (wrapError "error sending message" e),
        tr ++ [Event.botSend (.message (parseChatID c.chatID) text) (some e)]) := by
  simp [telegram.Client.SendMessage, h]

/-- The method `SendMedia` only adds to the trace, and what it adds holds no text send. -/
theorem SendMedia_trace (env : Env) (c : telegram.Client) (mediaType : String) (data : Bytes)
    (caption : String) (tr : Trace) :
    ∃ suffix : Trace, (c.SendMedia env mediaType data caption tr).2 = tr ++ suffix ∧
      (sends suffix).filter Chattable.isText = [] := by
  by_cases h : mediaType ∈ ["image", "video", "audio", "document"]
  · obtain ⟨req, hreq, htr, _, _⟩ :=
      (SendMedia_outcomes env c mediaType data caption tr).2 h
    exact ⟨_, htr, by simp [sends, hreq]⟩
  · exact ⟨[], by
      rw [(SendMedia_outcomes env c mediaType data caption tr).1 h]; simp, rfl⟩

/-- The media part of one round of the loop of `ExportMessages` only adds to the trace, and
adds no text send. -/
theorem mediaStep_trace (env : Env) (c : telegram.Client) (includeMedia : Bool)
    (msg : whatsapp.Message) (tr : Trace) :
    ∃ suffix : Trace,
      (if includeMedia && msg.MediaData ≠ [] && decide (msg.MediaData.length > 0) then
          match c.SendMedia env msg.MediaType msg.MediaData "" tr with
          | (some err, tr3) =>
            tr3 ++ [Event.stdout ("Warning: Failed to send media for message " ++ msg.ID ++
              ": " ++ err ++ "\n")]
          | (none, tr3) => tr3
        else tr) = tr ++ suffix ∧
      (sends suffix).filter Chattable.isText = [] := by
  split
  · obtain ⟨suffix, hs, hf⟩ := SendMedia_trace env c msg.MediaType msg.MediaData "" tr
    rcases hres : c.SendMedia env msg.MediaType msg.MediaData "" tr with ⟨err, tr3⟩
    rw [hres] at hs
    simp only at hs
    subst hs
    cases err with
    | none => exact ⟨suffix, rfl, hf⟩
    | some e =>
      refine ⟨suffix ++ [Event.stdout ("Warning: Failed to send media for message " ++ msg.ID ++
        ": " ++ e ++ "\n")], by simp, ?_⟩
      rw [sends_append, List.filter_append, hf]
      rfl
  · exact ⟨[], by simp, rfl⟩

/-- When every text send succeeds, the loop of `ExportMessages` returns no error and sends
the formatted text of every message, in order. -/
theorem exportLoop_of_text_ok (env : Env) (c : telegram.Client) (includeMedia : Bool)
    (htext : ∀ t chatID text, env.botSend t (.message chatID text) = none)
    (msgs : List whatsapp.Message) (tr : Trace) :
    (exportLoop env c includeMedia msgs tr).1 = none ∧
    (sends (exportLoop env c includeMedia msgs tr).2).filter Chattable.isText =
      (sends tr).filter Chattable.isText ++
        msgs.map (fun m => Chattable.message (parseChatID c.chatID) (formatMessage m)) := by
  induction msgs generalizing tr with
  | nil => simp [exportLoop]
  | cons msg rest ih =>
    obtain ⟨suffix, hs, hf⟩ := mediaStep_trace env c includeMedia msg
      (tr ++ [Event.botSend (.message (parseChatID c.chatID) (formatMessage msg)) none])
    simp only [exportLoop, SendMessage_of_ok env c _ tr (htext _ _ _)]
    rw [hs]
    refine ⟨(ih _).1, ?_⟩
    rw [(ih _).2]
    simp only [sends_append, List.filter_append, hf, List.append_nil, List.map_cons,
      List.append_assoc]
    rfl

/-- When the loop of `ExportMessages` returns an error, the last thing it did was a text
send that failed, and the error is that of this send. -/
theorem exportLoop_error (env : Env) (c : telegram.Client) (includeMedia : Bool)
    (msgs : List whatsapp.Message) (tr : Trace) (err : GoError)
    (h : (exportLoop env c includeMedia msgs tr).1 = some err) :
    ∃ (before : Trace) (text : String) (e : GoError),
      (exportLoop env c includeMedia msgs tr).2 =
        tr ++ before ++ [Event.botSend (.message (parseChatID c.chatID) text) (some e)] ∧
      env.botSend (tr ++ before) (.message (parseChatID c.chatID) text) = some e ∧
      err = wrapError "error sending message" e := by
  induction msgs generalizing tr with
  | nil => simp [exportLoop] at h
  | cons msg rest ih =>
    cases hsend : env.botSend tr (.message (parseChatID c.chatID) (formatMessage msg)) with
    | some e =>
      simp only [exportLoop, SendMessage_of_error env c _ tr e hsend] at h ⊢
      exact ⟨[], formatMessage msg, e, by simp, by simpa using hsend, by simpa using h.symm⟩
    | none =>
      obtain ⟨suffix, hs, _⟩ := mediaStep_trace env c includeMedia msg
        (tr ++ [Event.botSend (.message (parseChatID c.chatID) (formatMessage msg)) none])
      simp only [exportLoop, SendMessage_of_ok env c _ tr hsend] at h ⊢
      rw [hs] at h ⊢
      obtain ⟨before, text, e, htr, hbot, herr⟩ := ih _ h
      exact ⟨Event.botSend (.message (parseChatID c.chatID) (formatMessage msg)) none ::
        (suffix ++ Event.sleep 100 :: before), text, e, by rw [htr]; simp,
        by simpa using hbot, herr⟩

/-- C4: with `includeMedia = true`, if the header send and every text send succeed, then
`ExportMessages` returns no error and its text sends are the header and the formatted text
of every message in order, whatever the media sends answer; and whenever `ExportMessages`
returns an error, the last thing it did was a text send (header or message text) that
failed, whose error it returns wrapped. -/
theorem ExportMessages_media_failure_does_not_abort (env : Env) (c : telegram.Client)
    (msgs : List whatsapp.Message) (tr : Trace) :
    ((∀ t chatID text, env.botSend t (.message chatID text) = none) →
      (c.ExportMessages env msgs true tr).1 = none ∧
      (sends (c.ExportMessages env msgs true tr).2).filter Chattable.isText =
        (sends tr).filter Chattable.isText ++
          Chattable.message (parseChatID c.chatID) (msgHeader msgs.length) ::
            msgs.map (fun m => Chattable.message (parseChatID c.chatID) (formatMessage m))) ∧
    (∀ err, (c.ExportMessages env msgs true tr).1 = some err →
      ∃ (before : Trace) (text : String) (e : GoError),
        (c.ExportMessages env msgs true tr).2 =
          tr ++ before ++ [Event.botSend (.message (parseChatID c.chatID) text) (some e)] ∧
        env.botSend (tr ++ before) (.message (parseChatID c.chatID) text) = some e ∧
        err = wrapError "error sending message" e) := by
  constructor
  · intro htext
    simp only [telegram.Client.ExportMessages, SendMessage_of_ok env c _ tr (htext _ _ _)]
    refine ⟨(exportLoop_of_text_ok env c true htext msgs _).1, ?_⟩
    rw [(exportLoop_of_text_ok env c true htext msgs _).2, sends_append, List.filter_append]
    simp only [List.append_assoc]
    rfl
  · intro err herr
    cases hsend : env.botSend tr (.message (parseChatID c.chatID) (msgHeader msgs.length)) with
    | some e =>
      simp only [telegram.Client.ExportMessages, SendMessage_of_error env c _ tr e hsend]
        at herr ⊢
      exact ⟨[], msgHeader msgs.length, e, by simp, by simpa using hsend,
        by simpa using herr.symm⟩
    | none =>
      simp only [telegram.Client.ExportMessages, SendMessage_of_ok env c _ tr hsend] at herr ⊢
      obtain ⟨before, text, e, htr, hbot, he⟩ := exportLoop_error env c true msgs _ err herr
      exact ⟨Event.botSend (.message (parseChatID c.chatID) (msgHeader msgs.length)) none ::
        before, text, e, by rw [htr]; simp, by simpa using hbot, he⟩

/-- C4 (witness): on a bot that accepts text and refuses media, the export of two messages,
one with an image, returns no error and sends the three texts, the refused photo request
being in the trace; on a bot that refuses everything the export returns the header's error. -/
theorem ExportMessages_media_failure_does_not_abort_witness :
    ((sampleClient.ExportMessages (sampleEnv textOnlyBot) sampleMessages true []).1 = none ∧
      (sends (sampleClient.ExportMessages (sampleEnv textOnlyBot) sampleMessages true []).2).filter
          Chattable.isText =
        (sends []).filter Chattable.isText ++
          Chattable.message (parseChatID sampleClient.chatID) (msgHeader sampleMessages.length) ::
            sampleMessages.map (fun m =>
              Chattable.message (parseChatID sampleClient.chatID) (formatMessage m))) ∧
    (∃ (before : Trace) (text : String) (e : GoError),
      (sampleClient.ExportMessages (sampleEnv fun _ _ => some "Forbidden") sampleMessages
          true []).2 =
        [] ++ before ++ [Event.botSend (.message (parseChatID sampleClient.chatID) text) (some e)] ∧
      (sampleEnv fun _ _ => some "Forbidden").botSend ([] ++ before)
        (.message (parseChatID sampleClient.chatID) text) = some e ∧
      wrapError "error sending message" "Forbidden" = wrapError "error sending message" e) ∧
    Event.botSend (.photo (-1001234567890) ⟨"media_-62135596800", [1, 2, 3]⟩ "")
        (some "Bad Request: file too big") ∈
      (sampleClient.ExportMessages (sampleEnv textOnlyBot) sampleMessages true []).2 :=
  ⟨(ExportMessages_media_failure_does_not_abort (sampleEnv textOnlyBot) sampleClient
      sampleMessages []).1 (fun _ _ _ => rfl),
   (ExportMessages_media_failure_does_not_abort (sampleEnv fun _ _ => some "Forbidden")
      sampleClient sampleMessages []).2 (wrapError "error sending message" "Forbidden") rfl,
   by decide⟩

/-! ### Decimal digits -/

/-- The character of a digit below ten is a digit with that value. -/
theorem digitChar_spec (d : Nat) (h : d < 10) :
    strconv.isDigit (strconv.digitChar d) = true ∧ strconv.digitVal (strconv.digitChar d) = d := by
  interval_cases d <;> decide

/-- A digit character is the character of its value, which is below ten. -/
theorem digitVal_spec (c : Char) (h : strconv.isDigit c = true) :
    strconv.digitChar (strconv.digitVal c) = c ∧ strconv.digitVal c < 10 := by
  simp only [strconv.isDigit, Bool.and_eq_true, decide_eq_true_eq, Char.le_def] at h
  have h1 : 48 ≤ c.toNat := by
    have := h.1
    simpa [Char.toNat, UInt32.le_def, Fin.le_def] using this
  have h2 : c.toNat ≤ 57 := by
    have := h.2
    simpa [Char.toNat, UInt32.le_def, Fin.le_def] using this
  constructor
  · unfold strconv.digitChar strconv.digitVal
    rw [Nat.add_sub_cancel' h1, Char.ofNat_toNat]
  · unfold strconv.digitVal
    omega

/-- The value of a digit run with one more digit at the end. -/
theorem digitsVal_snoc (ds : List Char) (c : Char) :
    strconv.digitsVal (ds ++ [c]) = strconv.digitsVal ds * 10 + strconv.digitVal c := by
  simp [strconv.digitsVal, List.foldl_append]

/-- A number below ten has one digit, whatever the fuel. -/
theorem natDigits_lt_ten (fuel n : Nat) (h : n < 10) :
    strconv.natDigits fuel n = [strconv.digitChar n] := by
  cases fuel with
  | zero => simp [strconv.natDigits, Nat.mod_eq_of_lt h]
  | succ f => simp [strconv.natDigits, h]

/-- Any two fuels that are at least the number give the same digits. -/
theorem natDigits_fuel (f : Nat) : ∀ (g n : Nat), n ≤ f → n ≤ g →
    strconv.natDigits f n = strconv.natDigits g n := by
  induction f with
  | zero =>
    intro g n hf _
    have hn : n = 0 := by omega
    subst hn
    rw [natDigits_lt_ten 0 0 (by omega), natDigits_lt_ten g 0 (by omega)]
  | succ f ih =>
    intro g n hf hg
    by_cases h : n < 10
    · rw [natDigits_lt_ten _ n h, natDigits_lt_ten _ n h]
    · obtain ⟨g1, rfl⟩ : ∃ g1, g = g1 + 1 := ⟨g - 1, by omega⟩
      simp only [strconv.natDigits, h, if_false]
      rw [ih g1 (n / 10) (by omega) (by omega)]

/-- The digits of `10 * n + d` are the digits of `n` followed by `d`. -/
theorem natDigits_snoc (n d : Nat) (hn : 0 < n) (hd : d < 10) :
    strconv.natDigits (10 * n + d) (10 * n + d) =
      strconv.natDigits n n ++ [strconv.digitChar d] := by
  obtain ⟨f, hf⟩ : ∃ f, 10 * n + d = f + 1 := ⟨10 * n + d - 1, by omega⟩
  have h10 : ¬ (10 * n + d < 10) := by omega
  have hdiv : (10 * n + d) / 10 = n := by omega
  have hmod : (10 * n + d) % 10 = d := by omega
  conv_lhs => rw [hf]
  rw [strconv.natDigits, ← hf]
  simp only [h10, if_false, hdiv, hmod]
  rw [natDigits_fuel f n n (by omega) (le_refl n)]

/-- Reading back the digits of a number gives the number; the digits are a non-empty run
of digit characters. -/
theorem natDigits_spec (n : Nat) :
    strconv.digitsVal (strconv.natDigits n n) = n ∧
    (strconv.natDigits n n).all strconv.isDigit = true ∧
    strconv.natDigits n n ≠ [] := by
  induction n using Nat.strong_induction_on with
  | _ n ih =>
    by_cases h : n < 10
    · rw [natDigits_lt_ten n n h]
      have := digitChar_spec n h
      simp [strconv.digitsVal, this.1, this.2]
    · have hn : n = 10 * (n / 10) + n % 10 := by omega
      have hd := digitChar_spec (n % 10) (by omega)
      obtain ⟨h1, h2, _⟩ := ih (n / 10) (by omega)
      rw [hn, natDigits_snoc (n / 10) (n % 10) (by omega) (by omega), digitsVal_snoc, h1, hd.2]
      refine ⟨by omega, ?_, by simp⟩
      simp [List.all_append, h2, hd.1]

/-- Writing the value of a digit run with zero padding to the length of the run gives the
run back. -/
theorem zeroPad_digitsVal (ds : List Char) (hne : ds ≠ [])
    (hall : ds.all strconv.isDigit = true) :
    time.zeroPad ds.length (strconv.digitsVal ds) = ds := by
  induction ds using List.reverseRecOn with
  | nil => exact absurd rfl hne
  | append_singleton ds c ih =>
    simp only [List.all_append, Bool.and_eq_true, List.all_cons, List.all_nil,
      Bool.and_true] at hall
    obtain ⟨hc1, hc2⟩ := digitVal_spec c hall.2
    by_cases hds : ds = []
    · subst hds
      simp [time.zeroPad, strconv.digitsVal, natDigits_lt_ten _ _ hc2, hc1]
    · have ih1 := ih hds hall.1
      unfold time.zeroPad at ih1 ⊢
      simp only at ih1 ⊢
      rw [digitsVal_snoc]
      by_cases hv : strconv.digitsVal ds = 0
      · rw [hv] at ih1 ⊢
        rw [natDigits_lt_ten 0 0 (by omega)] at ih1
        simp only [Nat.zero_mul, Nat.zero_add, natDigits_lt_ten _ _ hc2, hc1, List.length_append,
          List.length_singleton, Nat.add_sub_cancel]
        obtain ⟨k, hk⟩ : ∃ k, ds.length = k + 1 :=
          ⟨ds.length - 1, by have := List.length_pos.2 hds; omega⟩
        rw [hk] at ih1 ⊢
        have h0 : strconv.digitChar 0 = '0' := by decide
        rw [h0] at ih1
        simp only [List.length_singleton, Nat.add_sub_cancel] at ih1
        rw [List.replicate_succ', ih1]
      · have hs := natDigits_snoc (strconv.digitsVal ds) (strconv.digitVal c) (by omega) hc2
        rw [Nat.mul_comm] at hs
        rw [hs, hc1]
        simp only [List.length_append, List.length_singleton, Nat.add_sub_add_right]
        rw [← List.append_assoc, ih1]

/-! ### `time.Parse` with the layout `2006-01-02` -/

/-- What a successful `parseYear` has read. -/
theorem parseYear_some (v rest : List Char) (year : Int)
    (h : time.parseYear v = some (year, rest)) :
    ∃ a b c d, v = a :: b :: c :: d :: rest ∧ [a, b, c, d].all strconv.isDigit = true ∧
      year = (strconv.digitsVal [a, b, c, d] : Nat) := by
  unfold time.parseYear at h
  split at h
  · rename_i a b c d rest1
    split at h
    · rename_i hd
      simp only [Option.some.injEq, Prod.mk.injEq] at h
      refine ⟨a, b, c, d, by rw [h.2], ?_, h.1.symm⟩
      simpa [Bool.and_assoc] using hd
    · exact absurd h (by simp)
  · exact absurd h (by simp)

/-- What a successful `getnum` has read. -/
theorem getnum_some (v rest : List Char) (n : Nat) (h : time.getnum v = some (n, rest)) :
    ∃ a b, v = a :: b :: rest ∧ [a, b].all strconv.isDigit = true ∧
      n = strconv.digitsVal [a, b] := by
  unfold time.getnum at h
  split at h
  · rename_i a b rest1
    split at h
    · rename_i hd
      simp only [Option.some.injEq, Prod.mk.injEq] at h
      refine ⟨a, b, by rw [h.2], ?_, h.1.symm⟩
      simpa using hd
    · exact absurd h (by simp)
  · exact absurd h (by simp)

/-- What a successful `skipDash` has read. -/
theorem skipDash_some (v rest : List Char) (h : time.skipDash v = some rest) :
    v = '-' :: rest := by
  unfold time.skipDash at h
  split at h
  · rename_i c rest1
    split at h
    · rename_i hc
      simp only [Option.some.injEq] at h
      rw [hc, h]
    · exact absurd h (by simp)
  · exact absurd h (by simp)

/-- The strings accepted by `time.Parse` with the layout `2006-01-02`: four digits, a dash,
two digits, a dash, two digits, the month in 1..12 and the day one of that month. -/
theorem parseFields_some (v : List Char) (year : Int) (month day : Nat)
    (h : time.parseFields v = some (year, month, day)) :
    ∃ y : List Char, ∃ m : List Char, ∃ d : List Char,
      v = y ++ '-' :: m ++ '-' :: d ∧
      y.length = 4 ∧ m.length = 2 ∧ d.length = 2 ∧
      y.all strconv.isDigit = true ∧ m.all strconv.isDigit = true ∧
      d.all strconv.isDigit = true ∧
      year = (strconv.digitsVal y : Nat) ∧ month = strconv.digitsVal m ∧
      day = strconv.digitsVal d ∧
      1 ≤ month ∧ month ≤ 12 ∧ 1 ≤ day ∧ day ≤ time.daysIn month year := by
  unfold time.parseFields at h
  split at h
  · exact absurd h (by simp)
  · rename_i year1 v1 hy
    split at h
    · exact absurd h (by simp)
    · rename_i v2 hd1
      split at h
      · exact absurd h (by simp)
      · rename_i month1 v3 hm
        split at h
        · exact absurd h (by simp)
        · rename_i hmr
          split at h
          · exact absurd h (by simp)
          · rename_i v4 hd2
            split at h
            · exact absurd h (by simp)
            · rename_i day1 v5 hdd
              split at h
              · exact absurd h (by simp)
              · rename_i hv5
                split at h
                · exact absurd h (by simp)
                · rename_i hdr
                  simp only [Option.some.injEq, Prod.mk.injEq] at h
                  obtain ⟨rfl, rfl, rfl⟩ := h
                  obtain ⟨a, b, c, d, rfl, hay, hyv⟩ := parseYear_some _ _ _ hy
                  have e1 := skipDash_some _ _ hd1
                  obtain ⟨e, f, e2, hme, hmv⟩ := getnum_some _ _ _ hm
                  have e3 := skipDash_some _ _ hd2
                  obtain ⟨g, k, e4, hdg, hdv⟩ := getnum_some _ _ _ hdd
                  have e5 : v5 = [] := by simpa using hv5
                  subst e5 e4 e3 e2 e1
                  refine ⟨[a, b, c, d], [e, f], [g, k], rfl, rfl, rfl, rfl, hay, hme, hdg,
                    hyv, hmv, hdv, ?_, ?_, ?_, ?_⟩ <;> omega

/-- A time returned by `time.Parse` with the layout `2006-01-02` is midnight UTC of a date
that exists, and formatting it with the same layout gives the parsed string back. -/
theorem Parse_ok (value : String) (t : Time) (h : time.Parse value = .ok t) :
    t = time.midnightUTC t.year t.month t.day ∧ t.FormatDate = value ∧
    1 ≤ t.month ∧ t.month ≤ 12 ∧ 1 ≤ t.day ∧ t.day ≤ time.daysIn t.month t.year := by
  unfold time.Parse at h
  split at h
  · rename_i year month day hf
    simp only [Except.ok.injEq] at h
    subst h
    obtain ⟨y, m, d, hv, hyl, hml, hdl, hy, hm, hd, hyv, hmv, hdv, hr⟩ :=
      parseFields_some _ _ _ _ hf
    refine ⟨rfl, ?_, hr⟩
    have hy0 : y ≠ [] := by intro h0; rw [h0] at hyl; simp at hyl
    have hm0 : m ≠ [] := by intro h0; rw [h0] at hml; simp at hml
    have hd0 : d ≠ [] := by intro h0; rw [h0] at hdl; simp at hdl
    have py := zeroPad_digitsVal y hy0 hy
    have pm := zeroPad_digitsVal m hm0 hm
    have pd := zeroPad_digitsVal d hd0 hd
    rw [hyl] at py
    rw [hml] at pm
    rw [hdl] at pd
    have hneg : ¬ ((strconv.digitsVal y : Nat) : Int) < 0 := by omega
    simp only [Time.FormatDate, time.midnightUTC, time.appendInt, hyv, hmv, hdv, hneg, if_false,
      Int.natAbs_ofNat, py, pm, pd]
    rw [← hv]
    rfl
  · exact absurd h (by simp)

/-- The result of `ParseDateRange` in each of its cases. -/
theorem ParseDateRange_cases (e : ExportConfig) (now : Time) :
    ((e.DateFrom ≠ "" ∧ ∃ err, time.Parse e.DateFrom = .error err ∧
        e.ParseDateRange now =
          (Time.zero, Time.zero, some (wrapError "invalid date_from format" err))) ∨
      (∃ dateFrom, (if e.DateFrom ≠ "" then time.Parse e.DateFrom else .ok Time.zero) =
          .ok dateFrom ∧ e.DateTo ≠ "" ∧ ∃ err, time.Parse e.DateTo = .error err ∧
        e.ParseDateRange now =
          (Time.zero, Time.zero, some (wrapError "invalid date_to format" err)))) ∨
    (∃ dateFrom dateTo,
      (if e.DateFrom ≠ "" then time.Parse e.DateFrom else .ok Time.zero) = .ok dateFrom ∧
      (if e.DateTo ≠ "" then time.Parse e.DateTo else .ok now) = .ok dateTo ∧
      e.ParseDateRange now = (dateFrom, dateTo, none)) := by
  unfold config.ExportConfig.ParseDateRange
  cases hfrom : (if e.DateFrom ≠ "" then time.Parse e.DateFrom else .ok Time.zero) with
  | error err =>
    left; left
    by_cases h : e.DateFrom = ""
    · simp [h] at hfrom
    · simp only [ne_eq, h, not_false_eq_true, if_true] at hfrom
      exact ⟨h, err, hfrom, rfl⟩
  | ok dateFrom =>
    by_cases h : e.DateTo = ""
    · right
      exact ⟨dateFrom, now, rfl, by simp [h], by simp [h]⟩
    · cases hto : time.Parse e.DateTo with
      | error err =>
        left; right
        exact ⟨dateFrom, rfl, h, err, rfl, by simp [h]⟩
      | ok dateTo =>
        right
        exact ⟨dateFrom, dateTo, rfl, by simp [h, hto], by simp [h]⟩

/-- C6: `ParseDateRange` returns an error exactly when a non-empty `date_from` or a non-empty
`date_to` is refused by `time.Parse` with the layout `2006-01-02`, and whenever it returns an
error both returned times are the zero time, also when `date_from` was parsed. -/
theorem ParseDateRange_error_iff (e : ExportConfig) (now : Time) :
    ((e.ParseDateRange now).2.2 ≠ none ↔
      (e.DateFrom ≠ "" ∧ ∃ err, time.Parse e.DateFrom = .error err) ∨
      (e.DateTo ≠ "" ∧ ∃ err, time.Parse e.DateTo = .error err)) ∧
    ((e.ParseDateRange now).2.2 ≠ none →
      (e.ParseDateRange now).1 = Time.zero ∧ (e.ParseDateRange now).2.1 = Time.zero) := by
  rcases ParseDateRange_cases e now with
    (⟨h, err, hp, hr⟩ | ⟨dateFrom, _, h, err, hp, hr⟩) | ⟨dateFrom, dateTo, hf, ht, hr⟩
  · rw [hr]
    exact ⟨⟨fun _ => Or.inl ⟨h, err, hp⟩, fun _ => by simp⟩, fun _ => ⟨rfl, rfl⟩⟩
  · rw [hr]
    exact ⟨⟨fun _ => Or.inr ⟨h, err, hp⟩, fun _ => by simp⟩, fun _ => ⟨rfl, rfl⟩⟩
  · rw [hr]
    refine ⟨⟨fun hne => absurd rfl hne, ?_⟩, fun hne => absurd rfl hne⟩
    rintro (⟨h, err, hp⟩ | ⟨h, err, hp⟩)
    · simp [h, hp] at hf
    · simp [h, hp] at ht

/-- C6 (witness): a valid `date_from` with an invalid `date_to` gives an error and the zero
time for both. -/
theorem ParseDateRange_error_iff_witness :
    ((config.ExportConfig.mk true "2024-01-15" "15/02/2024").ParseDateRange
        ⟨2024, 3, 1, 12, 0, 0, 0, UTC⟩).2.2 ≠ none ∧
    ((config.ExportConfig.mk true "2024-01-15" "15/02/2024").ParseDateRange
        ⟨2024, 3, 1, 12, 0, 0, 0, UTC⟩).1 = Time.zero ∧
    ((config.ExportConfig.mk true "2024-01-15" "15/02/2024").ParseDateRange
        ⟨2024, 3, 1, 12, 0, 0, 0, UTC⟩).2.1 = Time.zero :=
  ⟨(ParseDateRange_error_iff ⟨true, "2024-01-15", "15/02/2024"⟩
      ⟨2024, 3, 1, 12, 0, 0, 0, UTC⟩).1.2 (Or.inr ⟨by decide, _, rfl⟩),
   (ParseDateRange_error_iff ⟨true, "2024-01-15", "15/02/2024"⟩
      ⟨2024, 3, 1, 12, 0, 0, 0, UTC⟩).2 (by decide)⟩

/-- C7: when `ParseDateRange` returns no error, an empty `date_from` gives the zero time as
`from`, an empty `date_to` gives the clock reading as `to`, and a non-empty field gives what
`time.Parse` returns for that field alone: midnight (00:00:00.0) UTC of a date that exists
and that, written as `YYYY-MM-DD`, is the field. -/
theorem ParseDateRange_success (e : ExportConfig) (now : Time)
    (h : (e.ParseDateRange now).2.2 = none) :
    (e.DateFrom = "" → (e.ParseDateRange now).1 = Time.zero) ∧
    (e.DateTo = "" → (e.ParseDateRange now).2.1 = now) ∧
    (e.DateFrom ≠ "" →
      time.Parse e.DateFrom = .ok (e.ParseDateRange now).1 ∧
      (e.ParseDateRange now).1 = time.midnightUTC (e.ParseDateRange now).1.year
        (e.ParseDateRange now).1.month (e.ParseDateRange now).1.day ∧
      (e.ParseDateRange now).1.FormatDate = e.DateFrom ∧
      1 ≤ (e.ParseDateRange now).1.month ∧ (e.ParseDateRange now).1.month ≤ 12 ∧
      1 ≤ (e.ParseDateRange now).1.day ∧
      (e.ParseDateRange now).1.day ≤
        time.daysIn (e.ParseDateRange now).1.month (e.ParseDateRange now).1.year) ∧
    (e.DateTo ≠ "" →
      time.Parse e.DateTo = .ok (e.ParseDateRange now).2.1 ∧
      (e.ParseDateRange now).2.1 = time.midnightUTC (e.ParseDateRange now).2.1.year
        (e.ParseDateRange now).2.1.month (e.ParseDateRange now).2.1.day ∧
      (e.ParseDateRange now).2.1.FormatDate = e.DateTo ∧
      1 ≤ (e.ParseDateRange now).2.1.month ∧ (e.ParseDateRange now).2.1.month ≤ 12 ∧
      1 ≤ (e.ParseDateRange now).2.1.day ∧
      (e.ParseDateRange now).2.1.day ≤
        time.daysIn (e.ParseDateRange now).2.1.month (e.ParseDateRange now).2.1.year) := by
  rcases ParseDateRange_cases e now with
    (⟨_, err, _, hr⟩ | ⟨dateFrom, _, _, err, _, hr⟩) | ⟨dateFrom, dateTo, hf, ht, hr⟩
  · rw [hr] at h; simp at h
  · rw [hr] at h; simp at h
  · rw [hr]
    refine ⟨fun h0 => ?_, fun h0 => ?_, fun h0 => ?_, fun h0 => ?_⟩
    · simpa [h0] using hf.symm
    · simpa [h0] using ht.symm
    · simp only [ne_eq, h0, not_false_eq_true, if_true] at hf
      exact ⟨hf, Parse_ok e.DateFrom dateFrom hf⟩
    · simp only [ne_eq, h0, not_false_eq_true, if_true] at ht
      exact ⟨ht, Parse_ok e.DateTo dateTo ht⟩

/-- C7 (witness): both fields empty, and both fields set. -/
theorem ParseDateRange_success_witness :
    ((config.ExportConfig.mk true "" "").ParseDateRange ⟨2024, 3, 1, 12, 30, 0, 5, UTC⟩).1 =
      Time.zero ∧
    ((config.ExportConfig.mk true "" "").ParseDateRange ⟨2024, 3, 1, 12, 30, 0, 5, UTC⟩).2.1 =
      ⟨2024, 3, 1, 12, 30, 0, 5, UTC⟩ ∧
    ((config.ExportConfig.mk true "2023-12-31" "2024-02-29").ParseDateRange
      ⟨2024, 3, 1, 12, 30, 0, 5, UTC⟩).1 = time.midnightUTC 2023 12 31 ∧
    ((config.ExportConfig.mk true "2023-12-31" "2024-02-29").ParseDateRange
      ⟨2024, 3, 1, 12, 30, 0, 5, UTC⟩).2.1 = time.midnightUTC 2024 2 29 ∧
    ((config.ExportConfig.mk true "2023-12-31" "2024-02-29").ParseDateRange
      ⟨2024, 3, 1, 12, 30, 0, 5, UTC⟩).2.1.FormatDate = "2024-02-29" :=
  ⟨(ParseDateRange_success ⟨true, "", ""⟩ ⟨2024, 3, 1, 12, 30, 0, 5, UTC⟩ rfl).1 rfl,
   (ParseDateRange_success ⟨true, "", ""⟩ ⟨2024, 3, 1, 12, 30, 0, 5, UTC⟩ rfl).2.1 rfl,
   ((ParseDateRange_success ⟨true, "2023-12-31", "2024-02-29"⟩
      ⟨2024, 3, 1, 12, 30, 0, 5, UTC⟩ rfl).2.2.1 (by decide)).2.1,
   ((ParseDateRange_success ⟨true, "2023-12-31", "2024-02-29"⟩
      ⟨2024, 3, 1, 12, 30, 0, 5, UTC⟩ rfl).2.2.2 (by decide)).2.1,
   ((ParseDateRange_success ⟨true, "2023-12-31", "2024-02-29"⟩
      ⟨2024, 3, 1, 12, 30, 0, 5, UTC⟩ rfl).2.2.2 (by decide)).2.2.1⟩

/-! ### Connecting to WhatsApp -/

/-- The method `saveSession` succeeds exactly when the file is created and the session is
encoded. -/
theorem saveSession_ok_iff (env : Env) (c : whatsapp.Client) (session : Session) (tr : Trace) :
    (c.saveSession env session tr).1 = none ↔
      env.osCreate tr c.sessionFile = none ∧
      ∃ data, env.gobEncode (tr ++ [Event.fileCreate c.sessionFile]) session = .ok data := by
  unfold whatsapp.Client.saveSession
  cases env.osCreate tr c.sessionFile with
  | some err => simp
  | none =>
    cases henc : env.gobEncode (tr ++ [Event.fileCreate c.sessionFile]) session with
    | error err => simp [henc]
    | ok data => simp [henc]

/-- The method `restoreSession` succeeds exactly when each of its steps does: the file is
opened, the session decoded, accepted by the library, and saved again. -/
theorem restoreSession_ok_iff (env : Env) (c : whatsapp.Client) (conn : Conn) (tr : Trace) :
    (c.restoreSession env conn tr).1 = none ↔
      ∃ file session restored,
        env.osOpen tr c.sessionFile = .ok file ∧
        env.gobDecode file = .ok session ∧
        env.RestoreWithSession tr conn session = .ok restored ∧
        (c.saveSession env restored tr).1 = none := by
  unfold whatsapp.Client.restoreSession
  cases env.osOpen tr c.sessionFile with
  | error err => simp
  | ok file =>
    cases hdec : env.gobDecode file with
    | error err => simp [hdec]
    | ok session =>
      cases hres : env.RestoreWithSession tr conn session with
      | error err => simp [hdec, hres]
      | ok restored =>
        rcases hsave : c.saveSession env restored tr with ⟨err, tr1⟩
        cases err with
        | none => simp [hdec, hres, hsave]
        | some e => simp [hdec, hres, hsave]

/-- C8: whenever `whatsapp.NewConn` succeeds, `Connect` returns no error, whatever happens
to the session restore; the client is left with the new connection and the session file
path it had; `loggedIn` is true after `Connect` exactly when `restoreSession` succeeded,
that is when the session file was opened, decoded, accepted by the library and saved again;
and when any of these steps fails the client is left connected with `loggedIn = false`. -/
theorem Connect_tolerates_restore_failure (env : Env) (c : whatsapp.Client) (tr : Trace)
    (conn : Conn) (hconn : env.NewConn tr = .ok conn) :
    (c.Connect env tr).1 = none ∧
    (c.Connect env tr).2.1.conn = some conn ∧
    (c.Connect env tr).2.1.sessionFile = c.sessionFile ∧
    ((c.Connect env tr).2.1.loggedIn = true ↔
      (whatsapp.Client.restoreSession env { c with conn := some conn } conn tr).1 = none) ∧
    ((c.Connect env tr).2.1.loggedIn = true ↔
      ∃ file session restored data,
        env.osOpen tr c.sessionFile = .ok file ∧
        env.gobDecode file = .ok session ∧
        env.RestoreWithSession tr conn session = .ok restored ∧
        env.osCreate tr c.sessionFile = none ∧
        env.gobEncode (tr ++ [Event.fileCreate c.sessionFile]) restored = .ok data) ∧
    ((whatsapp.Client.restoreSession env { c with conn := some conn } conn tr).1 ≠ none →
      (c.Connect env tr).2.1 = { c with conn := some conn, loggedIn := false }) := by
  have hlog : (c.Connect env tr).1 = none ∧ (c.Connect env tr).2.1.conn = some conn ∧
      (c.Connect env tr).2.1.sessionFile = c.sessionFile ∧
      ((c.Connect env tr).2.1.loggedIn = true ↔
        (whatsapp.Client.restoreSession env { c with conn := some conn } conn tr).1 = none) ∧
      ((whatsapp.Client.restoreSession env { c with conn := some conn } conn tr).1 ≠ none →
        (c.Connect env tr).2.1 = { c with conn := some conn, loggedIn := false }) := by
    unfold whatsapp.Client.Connect
    simp only [hconn]
    rcases hr : whatsapp.Client.restoreSession env { c with conn := some conn } conn tr with
      ⟨err, tr1⟩
    cases err with
    | none => simp
    | some e => simp
  obtain ⟨h1, h2, h3, h4, h5⟩ := hlog
  refine ⟨h1, h2, h3, h4, ?_, h5⟩
  rw [h4, restoreSession_ok_iff]
  constructor
  · rintro ⟨file, session, restored, ho, hd, hr, hs⟩
    obtain ⟨hc, data, he⟩ := (saveSession_ok_iff env _ restored tr).1 hs
    exact ⟨file, session, restored, data, ho, hd, hr, hc, he⟩
  · rintro ⟨file, session, restored, data, ho, hd, hr, hc, he⟩
    exact ⟨file, session, restored, ho, hd, hr, (saveSession_ok_iff env _ restored tr).2 ⟨hc, data, he⟩⟩

/-- C8 (witness): a session that is read and decoded but refused by the library leaves the
client connected and not logged in, with no error from `Connect`; a session that is restored
and saved leaves it logged in. -/
theorem Connect_tolerates_restore_failure_witness :
    ((whatsapp.NewClient "whatsapp_session.gob").Connect rejectedSessionEnv []).1 = none ∧
    ((whatsapp.NewClient "whatsapp_session.gob").Connect rejectedSessionEnv []).2.1 =
      { whatsapp.NewClient "whatsapp_session.gob" with conn := some ⟨7⟩, loggedIn := false } ∧
    ((whatsapp.NewClient "whatsapp_session.gob").Connect restoredSessionEnv []).2.1.loggedIn =
      true :=
  ⟨(Connect_tolerates_restore_failure rejectedSessionEnv (whatsapp.NewClient "whatsapp_session.gob")
      [] ⟨7⟩ rfl).1,
   (Connect_tolerates_restore_failure rejectedSessionEnv (whatsapp.NewClient "whatsapp_session.gob")
      [] ⟨7⟩ rfl).2.2.2.2.2 (by decide),
   (Connect_tolerates_restore_failure restoredSessionEnv (whatsapp.NewClient "whatsapp_session.gob")
      [] ⟨7⟩ rfl).2.2.2.2.1.2 ⟨[1, 2, 3], ⟨42⟩, ⟨43⟩, [4, 5, 6], rfl, rfl, rfl, rfl, rfl⟩⟩

/-! ### Scanning the chat id -/

/-- A number below `10 ^ k` has at most `k` digits. -/
theorem natDigits_length_le (k : Nat) : ∀ n : Nat, n < 10 ^ (k + 1) →
    (strconv.natDigits n n).length ≤ k + 1 := by
  induction k with
  | zero =>
    intro n hn
    rw [natDigits_lt_ten n n (by simpa using hn)]
    simp
  | succ k ih =>
    intro n hn
    by_cases h : n < 10
    · rw [natDigits_lt_ten n n h]
      simp
    · have hn1 : n = 10 * (n / 10) + n % 10 := by omega
      have hlt : n / 10 < 10 ^ (k + 1) := by
        rw [Nat.div_lt_iff_lt_mul (by omega)]
        rw [pow_succ] at hn
        exact hn
      rw [hn1, natDigits_snoc (n / 10) (n % 10) (by omega) (by omega)]
      have := ih (n / 10) hlt
      simp only [List.length_append, List.length_singleton]
      omega

/-- A character that is not a space stops `SkipSpace`. -/
theorem SkipSpace_of_not_space (c : Char) (rest : List Char) (h : fmt.isSpace c = false) :
    fmt.SkipSpace (c :: rest) = some (c :: rest) := by
  have h1 : c ≠ '\r' := by
    intro h0
    rw [h0] at h
    exact absurd h (by decide)
  have h2 : c ≠ '\n' := by
    intro h0
    rw [h0] at h
    exact absurd h (by decide)
  simp [fmt.SkipSpace, h1, h2, h]

/-- A digit is neither a space nor a sign. -/
theorem isDigit_not_space_not_sign (c : Char) (h : strconv.isDigit c = true) :
    fmt.isSpace c = false ∧ c ≠ '+' ∧ c ≠ '-' := by
  obtain ⟨h1, h2⟩ := digitVal_spec c h
  rw [← h1]
  generalize strconv.digitVal c = d at h2
  interval_cases d <;> decide

/-- The longest run of digits at the start of a digit run followed by something that does
not start with a digit is that digit run. -/
theorem takeWhile_isDigit_append (ds rest : List Char)
    (hds : ds.all strconv.isDigit = true)
    (hrest : ∀ c, rest.head? = some c → strconv.isDigit c = false) :
    (ds ++ rest).takeWhile strconv.isDigit = ds := by
  induction ds with
  | nil =>
    cases rest with
    | nil => rfl
    | cons c r => simp [List.takeWhile, hrest c rfl]
  | cons d ds ih =>
    simp only [List.all_cons, Bool.and_eq_true] at hds
    simp [List.takeWhile, hds.1, ih hds.2]

/-- The result of `strconv.ParseInt` on a run of digits without a sign. -/
theorem ParseInt_digits (ds : List Char) (hne : ds ≠ [])
    (hds : ds.all strconv.isDigit = true) (hlt : strconv.digitsVal ds < 2 ^ 63) :
    strconv.ParseInt ds = some (strconv.digitsVal ds : Int) := by
  obtain ⟨d, r, rfl⟩ := List.exists_cons_of_ne_nil hne
  have hd : strconv.isDigit d = true := by
    simp only [List.all_cons, Bool.and_eq_true] at hds
    exact hds.1
  obtain ⟨_, hp, hm⟩ := isDigit_not_space_not_sign d hd
  have hge : ¬ (2 ^ 63 ≤ strconv.digitsVal (d :: r)) := by omega
  simp only [strconv.ParseInt, List.head?_cons, Option.some.injEq, hp, hm, or_self, if_false,
    List.all_cons, reduceCtorEq, hds, not_true_eq_false, or_false, false_and, not_false_eq_true,
    true_and, ge_iff_le, hge]

/-- The result of `strconv.ParseInt` on a minus sign followed by a run of digits. -/
theorem ParseInt_minus_digits (ds : List Char) (hne : ds ≠ [])
    (hds : ds.all strconv.isDigit = true) (hle : strconv.digitsVal ds ≤ 2 ^ 63) :
    strconv.ParseInt ('-' :: ds) = some (-(strconv.digitsVal ds : Int)) := by
  have hgt : ¬ (2 ^ 63 < strconv.digitsVal ds) := by omega
  simp only [strconv.ParseInt, List.head?_cons, Option.some.injEq, or_true, if_true,
    List.tail_cons, hne, hds, not_true_eq_false, or_false, if_false, true_and, not_true,
    false_and, gt_iff_lt, hgt]

/-- Scanning an unsigned digit run followed by something that does not start with a digit
hands exactly the digit run to `strconv.ParseInt`. -/
theorem scanInt_digits (ds rest : List Char) (hne : ds ≠ [])
    (hds : ds.all strconv.isDigit = true)
    (hrest : ∀ c, rest.head? = some c → strconv.isDigit c = false) :
    fmt.SkipSpace (ds ++ rest) = some (ds ++ rest) ∧
    fmt.scanInt (ds ++ rest) = strconv.ParseInt ds := by
  obtain ⟨d, r, rfl⟩ := List.exists_cons_of_ne_nil hne
  have hd : strconv.isDigit d = true := by
    simp only [List.all_cons, Bool.and_eq_true] at hds
    exact hds.1
  obtain ⟨hs, hp, hm⟩ := isDigit_not_space_not_sign d hd
  have hskip : fmt.SkipSpace (d :: r ++ rest) = some (d :: r ++ rest) :=
    SkipSpace_of_not_space d (r ++ rest) hs
  refine ⟨hskip, ?_⟩
  have htw := takeWhile_isDigit_append (d :: r) rest hds hrest
  simp only [List.cons_append] at hskip htw
  simp only [fmt.scanInt, List.cons_append, hskip, hp, hm, or_self, if_false, htw,
    List.nil_append, reduceCtorEq]

/-- Scanning a minus sign and a digit run followed by something that does not start with a
digit hands the sign and the digit run to `strconv.ParseInt`. -/
theorem scanInt_minus_digits (ds rest : List Char) (hne : ds ≠ [])
    (hds : ds.all strconv.isDigit = true)
    (hrest : ∀ c, rest.head? = some c → strconv.isDigit c = false) :
    fmt.SkipSpace ('-' :: ds ++ rest) = some ('-' :: ds ++ rest) ∧
    fmt.scanInt ('-' :: ds ++ rest) = strconv.ParseInt ('-' :: ds) := by
  have hskip : fmt.SkipSpace ('-' :: (ds ++ rest)) = some ('-' :: (ds ++ rest)) :=
    SkipSpace_of_not_space '-' (ds ++ rest) (by decide)
  refine ⟨hskip, ?_⟩
  have htw := takeWhile_isDigit_append ds rest hds hrest
  simp only [fmt.scanInt, List.cons_append, hskip, or_true, if_true, htw, hne, if_false,
    List.singleton_append, List.nil_append]

/-- The first character kept by `List.take` is the first character of the list. -/
theorem head?_take (k : Nat) (l : List Char) (c : Char) (h : (l.take k).head? = some c) :
    l.head? = some c := by
  cases k with
  | zero => simp at h
  | succ k =>
    cases l with
    | nil => simp at h
    | cons a l => simpa using h

/-- The scanner reads back the decimal rendering of a signed 64-bit integer, also when
text that does not start with a digit follows it. -/
theorem SscanfInt64_formatChars (n : Int) (hlo : -(2 ^ 63) ≤ n) (hhi : n < 2 ^ 63)
    (rest : List Char) (hrest : ∀ c, rest.head? = some c → strconv.isDigit c = false) :
    fmt.SscanfInt64 (String.mk (strconv.formatChars n ++ rest)) = some n := by
  obtain ⟨hval, hall, hne⟩ := natDigits_spec n.natAbs
  have hlen : (strconv.natDigits n.natAbs n.natAbs).length ≤ 19 :=
    natDigits_length_le 18 n.natAbs (by omega)
  have hrest1 : ∀ k c, (rest.take k).head? = some c → strconv.isDigit c = false :=
    fun k c h => hrest c (head?_take k rest c h)
  unfold fmt.SscanfInt64 strconv.formatChars
  simp only [String.toList]
  by_cases hneg : n < 0
  · simp only [hneg, if_true]
    rw [List.take_append_eq_append_take, List.take_of_length_le
      (by simp only [List.length_cons, fmt.hugeWid]; omega)]
    obtain ⟨h1, h2⟩ := scanInt_minus_digits _ (rest.take (fmt.hugeWid -
      ('-' :: strconv.natDigits n.natAbs n.natAbs).length)) hne hall (hrest1 _)
    rw [h1]
    simp only [h2]
    rw [ParseInt_minus_digits _ hne hall (by omega), hval]
    congr 1
    omega
  · simp only [hneg, if_false]
    rw [List.take_append_eq_append_take, List.take_of_length_le
      (by simp only [fmt.hugeWid]; omega)]
    obtain ⟨h1, h2⟩ := scanInt_digits _ (rest.take (fmt.hugeWid -
      (strconv.natDigits n.natAbs n.natAbs).length)) hne hall (hrest1 _)
    rw [h1]
    simp only [h2]
    rw [ParseInt_digits _ hne hall (by omega), hval]
    congr 1
    omega

/-- The scanner reads the first character of a non-empty string. -/
theorem take_hugeWid_cons (c : Char) (rest : List Char) :
    (c :: rest).take fmt.hugeWid = c :: rest.take (fmt.hugeWid - 1) := by
  have h : fmt.hugeWid = (fmt.hugeWid - 1) + 1 := by simp [fmt.hugeWid]
  conv_lhs => rw [h]
  rfl

/-- The scan fails on the empty string, on a string that starts with a character that is
not a digit, a sign or a space, and on a sign that is not followed by a digit. -/
theorem SscanfInt64_eq_none (s : String)
    (h : s.toList = [] ∨
      (∃ c rest, s.toList = c :: rest ∧ strconv.isDigit c = false ∧ c ≠ '+' ∧ c ≠ '-' ∧
        fmt.isSpace c = false) ∨
      (∃ c rest, s.toList = c :: rest ∧ (c = '+' ∨ c = '-') ∧
        ∀ d, rest.head? = some d → strconv.isDigit d = false)) :
    fmt.SscanfInt64 s = none := by
  unfold fmt.SscanfInt64
  rcases h with h | ⟨c, rest, h, hd, hp, hm, hs⟩ | ⟨c, rest, h, hc, hrest⟩
  · rw [h]
    simp [fmt.SkipSpace, fmt.scanInt]
  · rw [h, take_hugeWid_cons, SkipSpace_of_not_space c _ hs]
    simp only [fmt.scanInt, SkipSpace_of_not_space c _ hs, hp, hm, or_self, if_false]
    simp [List.takeWhile, hd]
  · have hs : fmt.isSpace c = false := by
      rcases hc with rfl | rfl <;> decide
    have htw := takeWhile_isDigit_append [] (rest.take (fmt.hugeWid - 1)) rfl
      (fun d hd => hrest d (head?_take _ rest d hd))
    rw [h, take_hugeWid_cons, SkipSpace_of_not_space c _ hs]
    simp only [List.nil_append] at htw
    simp only [fmt.scanInt, SkipSpace_of_not_space c _ hs, hc, if_true, htw]

/-- C9 (counterexample): the chat id "12abc" is not a decimal integer, and `parseChatID`
returns 12 for it, not 0. -/
theorem parseChatID_trailing_text_counterexample :
    parseChatID "12abc" = 12 ∧ parseChatID "12abc" ≠ 0 := by
  decide

/-- C9 (amended): `parseChatID` returns 0 for the empty string, for every string whose first
character is not a digit, a sign or a space, and for every string that is a sign not
followed by a digit; it returns `n` for the decimal rendering of every signed 64-bit integer
`n`, negative ones included, and also when that rendering is followed by text that does not
start with a digit, which it leaves unread. -/
theorem parseChatID_reads_leading_integer :
    (∀ s : String,
      (s.toList = [] ∨
        (∃ c rest, s.toList = c :: rest ∧ strconv.isDigit c = false ∧ c ≠ '+' ∧ c ≠ '-' ∧
          fmt.isSpace c = false) ∨
        (∃ c rest, s.toList = c :: rest ∧ (c = '+' ∨ c = '-') ∧
          ∀ d, rest.head? = some d → strconv.isDigit d = false)) →
      parseChatID s = 0) ∧
    (∀ n : Int, -(2 ^ 63) ≤ n → n < 2 ^ 63 → parseChatID (strconv.FormatInt n) = n) ∧
    (∀ (n : Int) (rest : List Char), -(2 ^ 63) ≤ n → n < 2 ^ 63 →
      (∀ c, rest.head? = some c → strconv.isDigit c = false) →
      parseChatID (String.mk (strconv.formatChars n ++ rest)) = n) := by
  refine ⟨fun s h => ?_, fun n hlo hhi => ?_, fun n rest hlo hhi hrest => ?_⟩
  · simp only [parseChatID, SscanfInt64_eq_none s h]
  · have := SscanfInt64_formatChars n hlo hhi [] (by simp)
    rw [List.append_nil] at this
    simp only [parseChatID, strconv.FormatInt, this]
  · simp only [parseChatID, SscanfInt64_formatChars n hlo hhi rest hrest]

/-- C9 (witness): "@channel", "", "abc" and "-" give 0, the channel id "-1001234567890" gives
-1001234567890, and 12 followed by "abc" gives 12. -/
theorem parseChatID_reads_leading_integer_witness :
    parseChatID "@channel" = 0 ∧ parseChatID "" = 0 ∧ parseChatID "abc" = 0 ∧
    parseChatID "-" = 0 ∧
    parseChatID "-1001234567890" = -1001234567890 ∧
    parseChatID "12abc" = 12 :=
  ⟨parseChatID_reads_leading_integer.1 "@channel"
      (Or.inr (Or.inl ⟨'@', _, rfl, by decide, by decide, by decide, by decide⟩)),
   parseChatID_reads_leading_integer.1 "" (Or.inl rfl),
   parseChatID_reads_leading_integer.1 "abc"
      (Or.inr (Or.inl ⟨'a', _, rfl, by decide, by decide, by decide, by decide⟩)),
   parseChatID_reads_leading_integer.1 "-"
      (Or.inr (Or.inr ⟨'-', [], rfl, Or.inr rfl, by simp⟩)),
   (congrArg parseChatID
      (by decide : "-1001234567890" = strconv.FormatInt (-1001234567890))).trans
      (parseChatID_reads_leading_integer.2.1 (-1001234567890) (by decide) (by decide)),
   (congrArg parseChatID
      (by decide : "12abc" = String.mk (strconv.formatChars 12 ++ ['a', 'b', 'c']))).trans
      (parseChatID_reads_leading_integer.2.2 12 ['a', 'b', 'c'] (by decide) (by decide)
        (by simp; decide))⟩

/-! ### The export never succeeds -/

/-- The method `GetMessages` returns an error on every client. -/
theorem GetMessages_error (c : whatsapp.Client) (chatID : String) (dateFrom dateTo : Time) :
    ∃ slice err, c.GetMessages chatID dateFrom dateTo = (slice, some err) := by
  unfold whatsapp.Client.GetMessages
  split
  · exact ⟨_, _, rfl⟩
  · exact ⟨_, _, rfl⟩

/-- C10: with the source client as implemented, `ExportChat` returns an error for every
outside world, exporter, chat id and trace: either the date range error or the error of
`GetMessages`; it adds only two lines at most to the standard output and hands no request to
`bot.Send`, so `ExportMessages` has not run.  `ExportAllChats` returns the error
"error listing chats: ..." and leaves the trace as it was. -/
theorem ExportChat_never_succeeds (env : Env) (e : Exporter) (chatID : String) (tr : Trace) :
    ((∃ err, (e.ExportChat env chatID tr).1 =
          some (wrapError "error parsing date range" err)) ∨
      (∃ err, (e.ExportChat env chatID tr).1 =
          some (wrapError "error getting messages" err))) ∧
    (e.ExportChat env chatID tr).1 ≠ none ∧
    ((e.ExportChat env chatID tr).2 = tr ++ [Event.stdout "Starting export process...\n"] ∨
      ∃ line, (e.ExportChat env chatID tr).2 =
        tr ++ [Event.stdout "Starting export process...\n"] ++ [Event.stdout line]) ∧
    sends (e.ExportChat env chatID tr).2 = sends tr ∧
    (∃ err, e.ExportAllChats env tr = (some (wrapError "error listing chats" err), tr)) ∧
    (e.ExportAllChats env tr).1 ≠ none := by
  have hchat : ((∃ err, (e.ExportChat env chatID tr).1 =
          some (wrapError "error parsing date range" err)) ∨
        (∃ err, (e.ExportChat env chatID tr).1 =
          some (wrapError "error getting messages" err))) ∧
      ((e.ExportChat env chatID tr).2 = tr ++ [Event.stdout "Starting export process...\n"] ∨
        ∃ line, (e.ExportChat env chatID tr).2 =
          tr ++ [Event.stdout "Starting export process...\n"] ++ [Event.stdout line]) := by
    unfold exporter.Exporter.ExportChat
    dsimp only
    rcases hr : e.config.Export.ParseDateRange
      (env.now (tr ++ [Event.stdout "Starting export process...\n"])) with ⟨dateFrom, dateTo, err⟩
    cases err with
    | some err => exact ⟨Or.inl ⟨err, rfl⟩, Or.inl rfl⟩
    | none =>
      obtain ⟨slice, err, hg⟩ := GetMessages_error e.whatsapp chatID dateFrom dateTo
      dsimp only
      rw [hg]
      exact ⟨Or.inr ⟨err, rfl⟩, Or.inr ⟨_, rfl⟩⟩
  have hall : ∃ err, e.ExportAllChats env tr = (some (wrapError "error listing chats" err), tr) := by
    unfold exporter.Exporter.ExportAllChats exporter.Exporter.ListChats whatsapp.Client.GetChats
    split
    · exact ⟨_, rfl⟩
    · exact ⟨_, rfl⟩
  refine ⟨hchat.1, ?_, hchat.2, ?_, hall, ?_⟩
  · rcases hchat.1 with ⟨err, h⟩ | ⟨err, h⟩ <;> simp [h]
  · rcases hchat.2 with h | ⟨line, h⟩
    · rw [h, sends_append]
      simp [sends]
    · rw [h, sends_append, sends_append]
      simp [sends]
  · obtain ⟨err, h⟩ := hall
    simp [h]

/-! ### The login subcommand -/

/-- When the exporter is built and `whatsapp.NewConn` fails, `loginToWhatsApp` returns the
error of `Connect`: with a Telegram client at hand the WhatsApp client is used. -/
theorem loginToWhatsApp_connect_error (env : CmdEnv) (configFile : String) (tr : Trace)
    (cfg : Config) (tgClient : telegram.Client) (e : GoError)
    (hload : config.Load env configFile tr = .ok cfg)
    (hnew : telegram.NewClient env cfg.Telegram.BotToken cfg.Telegram.ChatID tr = .ok tgClient)
    (hconn : env.NewConn tr = .error e) :
    loginToWhatsApp env configFile tr =
      (some (wrapError "error connecting to WhatsApp" (wrapError "error creating connection" e)),
        some { config := cfg, whatsapp := whatsapp.NewClient cfg.WhatsApp.SessionFile,
               telegram := tgClient }, tr) := by
  simp only [loginToWhatsApp, hload, exporter.NewExporter, hnew, exporter.Exporter.Connect,
    whatsapp.Client.Connect, hconn]

/-- C11: if `config.Load` returns a configuration and `telegram.NewClient` fails on its bot
token, then `loginToWhatsApp` returns the error "error creating exporter: error creating
Telegram client: ..." with no exporter built and the trace as it was, so no session file is
created or written; the result is the same whatever the WhatsApp library, the file system and
the pairing handshake would have answered, so neither `Connect` nor `Login` was called.  When
the configuration file does not exist, the configuration is the default one, whose bot token
is empty. -/
theorem loginToWhatsApp_needs_telegram_client (env : CmdEnv) (configFile : String)
    (tr : Trace) (cfg : Config) (err : GoError)
    (hload : config.Load env configFile tr = .ok cfg)
    (hnew : telegram.NewClient env cfg.Telegram.BotToken cfg.Telegram.ChatID tr = .error err) :
    loginToWhatsApp env configFile tr =
      (some (wrapError "error creating exporter" (wrapError "error creating Telegram client" err)),
        none, tr) ∧
    (∀ env2 : CmdEnv, env2.ReadInConfig = env.ReadInConfig → env2.Unmarshal = env.Unmarshal →
      env2.NewBotAPI = env.NewBotAPI →
      loginToWhatsApp env2 configFile tr = loginToWhatsApp env configFile tr) ∧
    (∀ e0, env.ReadInConfig tr configFile = .notFound e0 →
      cfg = config.defaultConfig ∧ cfg.Telegram.BotToken = "") := by
  have hres : ∀ env1 : CmdEnv, config.Load env1 configFile tr = .ok cfg →
      telegram.NewClient env1 cfg.Telegram.BotToken cfg.Telegram.ChatID tr = .error err →
      loginToWhatsApp env1 configFile tr =
        (some (wrapError "error creating exporter"
          (wrapError "error creating Telegram client" err)), none, tr) := by
    intro env1 h1 h2
    simp only [loginToWhatsApp, h1, exporter.NewExporter, h2]
  refine ⟨hres env hload hnew, ?_, ?_⟩
  · intro env2 hr hu hb
    have hload2 : config.Load env2 configFile tr = .ok cfg := by
      unfold config.Load at hload ⊢
      rw [hr, hu]
      exact hload
    have hnew2 : telegram.NewClient env2 cfg.Telegram.BotToken cfg.Telegram.ChatID tr =
        .error err := by
      unfold telegram.NewClient at hnew ⊢
      rw [hb]
      exact hnew
    rw [hres env2 hload2 hnew2, hres env hload hnew]
  · intro e0 h0
    have hcfg : cfg = config.defaultConfig := by
      simp only [config.Load, h0, Except.ok.injEq] at hload
      exact hload.symm
    exact ⟨hcfg, by rw [hcfg]; rfl⟩

/-- C11 (witness): on a first run without a configuration file and with a Telegram API that
refuses the empty bot token, `loginToWhatsApp` fails before touching WhatsApp, although
the stored session could have been restored; with an accepted token the same run logs in
and writes the session file. -/
theorem loginToWhatsApp_needs_telegram_client_witness :
    loginToWhatsApp firstRunEnv "config" [] =
      (some (wrapError "error creating exporter" (wrapError "error creating Telegram client"
        (wrapError "error creating Telegram bot" "Not Found"))), none, []) ∧
    (loginToWhatsApp firstRunEnv "config" []).1 = some
      "error creating exporter: error creating Telegram client: error creating Telegram bot: Not Found" ∧
    (loginToWhatsApp acceptedTokenEnv "config" []).1 = none ∧
    Event.fileWrite "whatsapp_session.gob" [4, 5, 6] ∈
      (loginToWhatsApp acceptedTokenEnv "config" []).2.2 :=
  ⟨(loginToWhatsApp_needs_telegram_client firstRunEnv "config" [] config.defaultConfig
      (wrapError "error creating Telegram bot" "Not Found") rfl rfl).1,
   by decide, by decide, by decide⟩

end W2T
